import Mathlib

/-!
Verification development for the spreadsheet-extraction engine in
`src/server/src/services/excelParser.ts`.

The TypeScript source is embedded shallowly: cells are a typed union
(number / text / date / empty) with JS numbers modelled as rationals,
worksheets are lists of rows of cells, and every routine of the parser
(`cellNum`, `normalizeLabel`, `mapLabelToField`, the segmentation
strategies, `parseBlock`, the orchestrator `parseExcelBuffer`) is a
computable Lean function translated from the source.  JS regular
expressions used by the label table are embedded via a small regex AST
with a Brzozowski-derivative matcher; `r.test(s)` is encoded as a full
match of the pattern with an unrestricted star added on each unanchored
side.  The wall-clock year read by `createEmptyPeriod`
(`new Date().getFullYear()`) is passed as an explicit parameter `cy`.
JS float printing of non-integer numbers is abstracted by the rational's
`toString` (no claim depends on the text of a stringified number).
-/

set_option linter.unusedVariables false

/-! ### JS string helpers -/

/-- JS whitespace characters (the ones relevant to `\s`, `trim`). -/
def isJsSpace (c : Char) : Bool :=
  c == ' ' || c == '\t' || c == '\n' || c == '\r' || c == '\x0b' ||
  c == '\x0c' || c == ' '

/-- `String.prototype.toLowerCase` restricted to the characters this
parser meets: ASCII plus the Norwegian letters Æ, Ø, Å. -/
def jsToLower (c : Char) : Char :=
  if c == 'Æ' then 'æ' else if c == 'Ø' then 'ø' else if c == 'Å' then 'å'
  else c.toLower

def jsToLowerStr (s : String) : String := String.mk (s.data.map jsToLower)

/-- `String.prototype.trim` on a character list. -/
def jsTrimList (l : List Char) : List Char :=
  ((l.dropWhile isJsSpace).reverse.dropWhile isJsSpace).reverse

def jsTrim (s : String) : String := String.mk (jsTrimList s.data)

/-- Does `n` occur as a prefix of `l`? -/
def listHasPre (n l : List Char) : Bool :=
  match n, l with
  | [], _ => true
  | _ :: _, [] => false
  | a :: n', b :: l' => a == b && listHasPre n' l'

/-- Does `n` occur as a contiguous sublist of `l`?  (JS `includes` /
an unanchored alternation of literals in a regex `test`.) -/
def listHasSub (n l : List Char) : Bool :=
  listHasPre n l ||
  match l with
  | [] => false
  | _ :: t => listHasSub n t

def strHasSub (hay needle : String) : Bool := listHasSub needle.data hay.data

def strStarts (s p : String) : Bool := listHasPre p.data s.data

/-- Replace the first occurrence of `a` by `b` (JS `replace(",", ".")`). -/
def replaceFirstChar (a b : Char) : List Char → List Char
  | [] => []
  | c :: t => if c == a then b :: t else c :: replaceFirstChar a b t

/-- Collapse every run of JS whitespace into a single space
(JS `replace(/\s+/g, " ")`); `prevSpace` records whether the current run
already emitted its space. -/
def collapseWsAux (prevSpace : Bool) : List Char → List Char
  | [] => []
  | c :: t =>
    if isJsSpace c then
      if prevSpace then collapseWsAux true t else ' ' :: collapseWsAux true t
    else c :: collapseWsAux false t

def collapseWs (l : List Char) : List Char := collapseWsAux false l

/-- First index of `c` in `l` (`length` when absent); the branch of
`cellNum` that compares indices is only reached when both are present. -/
def idxOfChar (c : Char) (l : List Char) : Nat := l.findIdx (· == c)

/-! ### A small regex AST with a Brzozowski-derivative matcher.

`RE.rmatch r s` decides whether `s` as a whole matches `r`.  A JS
`r.test(s)` is translated by adding `anyS` (match anything) on each side
of the pattern that carries no anchor. -/

inductive RE where
  | eps : RE
  | cls (p : Char → Bool) : RE
  | seq (a b : RE) : RE
  | alt (a b : RE) : RE
  | star (a : RE) : RE

def RE.nullable : RE → Bool
  | .eps => true
  | .cls _ => false
  | .seq a b => a.nullable && b.nullable
  | .alt a b => a.nullable || b.nullable
  | .star _ => true

def RE.zero : RE := .cls (fun _ => false)

def RE.deriv : RE → Char → RE
  | .eps, _ => RE.zero
  | .cls p, c => if p c then .eps else RE.zero
  | .seq a b, c =>
    if a.nullable then .alt (.seq (a.deriv c) b) (b.deriv c)
    else .seq (a.deriv c) b
  | .alt a b, c => .alt (a.deriv c) (b.deriv c)
  | .star a, c => .seq (a.deriv c) (.star a)

def RE.rmatch (r : RE) (s : String) : Bool :=
  (s.data.foldl RE.deriv r).nullable

/-- One literal character. -/
def RE.lit (c : Char) : RE := .cls (· == c)

/-- A literal string. -/
def rs (s : String) : RE := s.data.foldr (fun c r => RE.seq (RE.lit c) r) RE.eps

/-- Sequence of a list of regexes. -/
def reSeq (l : List RE) : RE := l.foldr RE.seq RE.eps

/-- Alternation of a non-empty list of regexes. -/
def reAlt (l : List RE) : RE := l.foldr RE.alt RE.zero

/-- `r?` -/
def ro (r : RE) : RE := RE.alt RE.eps r

/-- `\s+` -/
def wsp : RE := RE.seq (RE.cls isJsSpace) (RE.star (RE.cls isJsSpace))

/-- `\s*` -/
def wss : RE := RE.star (RE.cls isJsSpace)

/-- The implicit "anything" added on an unanchored side of a pattern. -/
def anyS : RE := RE.star (RE.cls (fun _ => true))

/-- `.` (any char but newline) and `.*` as used inside the patterns. -/
def dotS : RE := RE.star (RE.cls (fun c => !(c == '\n')))

/-! ### Cell values and worksheets -/

/-- A cell value after ExcelJS resolution (`cellValue` in the source):
formula cells are already replaced by their results and rich text by its
concatenation, so only number / text / date / empty remain.  A date
carries its ISO string (for `cellStr`) and its year (`getFullYear`). -/
inductive CellVal where
  | num (q : ℚ)
  | str (s : String)
  | date (iso : String) (year : Int)
  | empty
deriving DecidableEq

structure Worksheet where
  name : String
  cells : List (List CellVal)
deriving DecidableEq

def Worksheet.rowCount (ws : Worksheet) : Nat := ws.cells.length

def Worksheet.columnCount (ws : Worksheet) : Nat :=
  ws.cells.foldr (fun r m => max r.length m) 0

/-- `ws.getRow(r).getCell(c)` with 1-based indices; anything outside the
stored range is an empty cell. -/
def Worksheet.getCell (ws : Worksheet) (r c : Nat) : CellVal :=
  (ws.cells.getD (r - 1) []).getD (c - 1) CellVal.empty

structure Workbook where
  worksheets : List Worksheet
deriving DecidableEq

/-! ### `cellNum` : locale-aware numeric parsing -/

/-- Parse a maximal run of decimal digits: value, digit count, rest. -/
def parseDigits : List Char → Nat × Nat × List Char
  | [] => (0, 0, [])
  | c :: t =>
    if c.isDigit then
      let (v, n, r) := parseDigits t
      -- digits accumulate most-significant first
      (c.toNat - '0'.toNat) * 10 ^ n + v |> fun acc => (acc, n + 1, r)
    else (0, 0, c :: t)

/-- JS `parseFloat` over rationals: skip leading whitespace, optional
sign, digits with an optional fractional part, and an optional exponent
that is only consumed when at least one exponent digit follows.
Returns `none` for NaN.  (`Infinity` inputs are modelled as `none`;
`cellNum` never builds such a string from a numeric cell.) -/
def jsParseFloat (s : String) : Option ℚ :=
  let l := s.data.dropWhile isJsSpace
  let (sg, l) : Int × List Char :=
    match l with
    | '-' :: t => (-1, t)
    | '+' :: t => (1, t)
    | l => (1, l)
  let (ip, nI, l) := parseDigits l
  let (fp, nF, l) :=
    match l with
    | '.' :: t => parseDigits t
    | l => (0, 0, l)
  if nI = 0 && nF = 0 then none
  else
    -- the mantissa is sign * ip.fp = sg * (ip * 10^nF + fp) / 10^nF,
    -- kept as numerator/denominator so the value is exact
    let mantNum : Int := sg * ((ip : Int) * (10 : Int) ^ nF + (fp : Int))
    let mantDen : Nat := 10 ^ nF
    match l with
    | 'e' :: t | 'E' :: t =>
      let (eneg, t2) : Bool × List Char :=
        match t with
        | '-' :: u => (true, u)
        | '+' :: u => (false, u)
        | t => (false, t)
      let (ev, nE, _) := parseDigits t2
      if nE = 0 then some (mkRat mantNum mantDen)
      else if eneg then some (mkRat mantNum (mantDen * 10 ^ ev))
      else some (mkRat (mantNum * (10 : Int) ^ ev) mantDen)
    | _ => some (mkRat mantNum mantDen)

/-- The string branch of `cellNum`, after the `trim` (`s` here is the
already-trimmed text). -/
def cellNumStr (s : String) : Option ℚ :=
  if s = "" || s = "-" || s = "--" || s = "n/a" || s = "N/A" then none
  else
    let hasComma := s.data.contains ','
    let hasDot := s.data.contains '.'
    let cleaned : List Char :=
      if hasComma && !hasDot then
        -- Norwegian: strip spaces, first comma becomes the decimal dot
        replaceFirstChar ',' '.' (s.data.filter (fun c => !isJsSpace c))
      else if hasComma && hasDot then
        let commaIdx := idxOfChar ',' s.data
        let dotIdx := idxOfChar '.' s.data
        if dotIdx < commaIdx then
          -- European: dots are thousands, comma is the decimal mark
          replaceFirstChar ',' '.'
            (s.data.filter (fun c => !(isJsSpace c || c == '.')))
        else
          -- English: commas are thousands, dot is the decimal mark
          s.data.filter (fun c => !(isJsSpace c || c == ','))
      else
        s.data.filter (fun c => !isJsSpace c)
    jsParseFloat (String.mk cleaned)

/-- `cellNum` from the source: numbers pass through, dates and empties
are `null`, and strings get the locale-sensitive cleanup. -/
def cellNum (v : CellVal) : Option ℚ :=
  match v with
  | .empty => none
  | .date _ _ => none
  | .num q => some q
  | .str s0 => cellNumStr (jsTrim s0)

/-- `cellStr`: text of a cell.  Numbers print via the rational's
`toString` (an abstraction of JS float printing: integers agree exactly,
and no claim reads the text of a non-integer number), dates print their
ISO string, and strings are trimmed. -/
def cellStr (v : CellVal) : String :=
  match v with
  | .empty => ""
  | .num q => jsTrim (toString q)
  | .date iso _ => iso
  | .str s => jsTrim s

/-! ### Label normalization -/

/-- Strip one maximal trailing run of `,.:;()` (JS `replace(/[,.:;()]+$/g,"")`). -/
def stripTrailingPunct (l : List Char) : List Char :=
  (l.reverse.dropWhile
    (fun c => c == ',' || c == '.' || c == ':' || c == ';' || c == '(' || c == ')')).reverse

/-- Remove quote characters: the source class at line 182 holds the ASCII
double-quote (code 34) and single-quote (code 39), each listed twice
(written here by code point to keep the characters out of the file). -/
def removeQuoteChars (l : List Char) : List Char :=
  l.filter (fun c => !(c.toNat == 34 || c.toNat == 39))

/-- `normalizeLabel`: lower-case, collapse whitespace, strip trailing
punctuation, drop curly quotes, trim. -/
def normalizeLabel (raw : String) : String :=
  String.mk (jsTrimList (removeQuoteChars (stripTrailingPunct
    (collapseWs (raw.data.map jsToLower)))))

/-! ### Fields, periods, parse context -/

/-- The numeric field keys of `PeriodYear` (`FieldKey` in the source,
restricted as there to the mapping targets). -/
inductive FieldKey where
  | revenue_total | revenue_managed_services | revenue_professional_services
  | revenue_other | revenue_organic | revenue_ma | revenue_growth
  | organic_growth | acquired_revenue
  | ebitda_total | ebitda_margin | ebitda_managed_services
  | ebitda_professional_services | ebitda_central_costs | ebitda_organic
  | ebitda_ma
  | margin_managed_services | margin_professional_services | margin_central_costs
  | capex | capex_pct_revenue | change_nwc | other_cash_flow_items
  | operating_fcf | minority_interest | operating_fcf_excl_minorities
  | cash_conversion
  | share_count | nibd | option_debt | adjustments | enterprise_value
  | equity_value | preferred_equity | per_share_pre | mip_amount | tso_amount
  | warrants_amount | eqv_post_dilution | per_share_post
deriving DecidableEq, Repr

/-- The TS key string of a field (used by the context update, which tests
`field.startsWith("revenue")` etc. on this string). -/
def fieldName : FieldKey → String
  | .revenue_total => "revenue_total"
  | .revenue_managed_services => "revenue_managed_services"
  | .revenue_professional_services => "revenue_professional_services"
  | .revenue_other => "revenue_other"
  | .revenue_organic => "revenue_organic"
  | .revenue_ma => "revenue_ma"
  | .revenue_growth => "revenue_growth"
  | .organic_growth => "organic_growth"
  | .acquired_revenue => "acquired_revenue"
  | .ebitda_total => "ebitda_total"
  | .ebitda_margin => "ebitda_margin"
  | .ebitda_managed_services => "ebitda_managed_services"
  | .ebitda_professional_services => "ebitda_professional_services"
  | .ebitda_central_costs => "ebitda_central_costs"
  | .ebitda_organic => "ebitda_organic"
  | .ebitda_ma => "ebitda_ma"
  | .margin_managed_services => "margin_managed_services"
  | .margin_professional_services => "margin_professional_services"
  | .margin_central_costs => "margin_central_costs"
  | .capex => "capex"
  | .capex_pct_revenue => "capex_pct_revenue"
  | .change_nwc => "change_nwc"
  | .other_cash_flow_items => "other_cash_flow_items"
  | .operating_fcf => "operating_fcf"
  | .minority_interest => "minority_interest"
  | .operating_fcf_excl_minorities => "operating_fcf_excl_minorities"
  | .cash_conversion => "cash_conversion"
  | .share_count => "share_count"
  | .nibd => "nibd"
  | .option_debt => "option_debt"
  | .adjustments => "adjustments"
  | .enterprise_value => "enterprise_value"
  | .equity_value => "equity_value"
  | .preferred_equity => "preferred_equity"
  | .per_share_pre => "per_share_pre"
  | .mip_amount => "mip_amount"
  | .tso_amount => "tso_amount"
  | .warrants_amount => "warrants_amount"
  | .eqv_post_dilution => "eqv_post_dilution"
  | .per_share_post => "per_share_post"

/-- `PeriodYear`: one fiscal year's values (the source interface). -/
structure PeriodYear where
  year : ℚ
  period_date : String
  period_label : String
  period_type : String
  revenue_total : Option ℚ
  revenue_managed_services : Option ℚ
  revenue_professional_services : Option ℚ
  revenue_other : Option ℚ
  revenue_organic : Option ℚ
  revenue_ma : Option ℚ
  revenue_growth : Option ℚ
  organic_growth : Option ℚ
  acquired_revenue : Option ℚ
  ebitda_total : Option ℚ
  ebitda_margin : Option ℚ
  ebitda_managed_services : Option ℚ
  ebitda_professional_services : Option ℚ
  ebitda_central_costs : Option ℚ
  ebitda_organic : Option ℚ
  ebitda_ma : Option ℚ
  margin_managed_services : Option ℚ
  margin_professional_services : Option ℚ
  margin_central_costs : Option ℚ
  capex : Option ℚ
  capex_pct_revenue : Option ℚ
  change_nwc : Option ℚ
  other_cash_flow_items : Option ℚ
  operating_fcf : Option ℚ
  minority_interest : Option ℚ
  operating_fcf_excl_minorities : Option ℚ
  cash_conversion : Option ℚ
  share_count : Option ℚ
  nibd : Option ℚ
  option_debt : Option ℚ
  adjustments : Option ℚ
  enterprise_value : Option ℚ
  equity_value : Option ℚ
  preferred_equity : Option ℚ
  per_share_pre : Option ℚ
  mip_amount : Option ℚ
  tso_amount : Option ℚ
  warrants_amount : Option ℚ
  eqv_post_dilution : Option ℚ
  per_share_post : Option ℚ
deriving DecidableEq, Repr

/-- `(periods[pi] as any)[field] = val` -/
def setField (f : FieldKey) (v : ℚ) (p : PeriodYear) : PeriodYear :=
  match f with
  | .revenue_total => { p with revenue_total := some v }
  | .revenue_managed_services => { p with revenue_managed_services := some v }
  | .revenue_professional_services => { p with revenue_professional_services := some v }
  | .revenue_other => { p with revenue_other := some v }
  | .revenue_organic => { p with revenue_organic := some v }
  | .revenue_ma => { p with revenue_ma := some v }
  | .revenue_growth => { p with revenue_growth := some v }
  | .organic_growth => { p with organic_growth := some v }
  | .acquired_revenue => { p with acquired_revenue := some v }
  | .ebitda_total => { p with ebitda_total := some v }
  | .ebitda_margin => { p with ebitda_margin := some v }
  | .ebitda_managed_services => { p with ebitda_managed_services := some v }
  | .ebitda_professional_services => { p with ebitda_professional_services := some v }
  | .ebitda_central_costs => { p with ebitda_central_costs := some v }
  | .ebitda_organic => { p with ebitda_organic := some v }
  | .ebitda_ma => { p with ebitda_ma := some v }
  | .margin_managed_services => { p with margin_managed_services := some v }
  | .margin_professional_services => { p with margin_professional_services := some v }
  | .margin_central_costs => { p with margin_central_costs := some v }
  | .capex => { p with capex := some v }
  | .capex_pct_revenue => { p with capex_pct_revenue := some v }
  | .change_nwc => { p with change_nwc := some v }
  | .other_cash_flow_items => { p with other_cash_flow_items := some v }
  | .operating_fcf => { p with operating_fcf := some v }
  | .minority_interest => { p with minority_interest := some v }
  | .operating_fcf_excl_minorities => { p with operating_fcf_excl_minorities := some v }
  | .cash_conversion => { p with cash_conversion := some v }
  | .share_count => { p with share_count := some v }
  | .nibd => { p with nibd := some v }
  | .option_debt => { p with option_debt := some v }
  | .adjustments => { p with adjustments := some v }
  | .enterprise_value => { p with enterprise_value := some v }
  | .equity_value => { p with equity_value := some v }
  | .preferred_equity => { p with preferred_equity := some v }
  | .per_share_pre => { p with per_share_pre := some v }
  | .mip_amount => { p with mip_amount := some v }
  | .tso_amount => { p with tso_amount := some v }
  | .warrants_amount => { p with warrants_amount := some v }
  | .eqv_post_dilution => { p with eqv_post_dilution := some v }
  | .per_share_post => { p with per_share_post := some v }

/-- All 41 numeric fields of a period, in declaration order (the
`Object.keys` minus the four metadata keys). -/
def PeriodYear.fieldList (p : PeriodYear) : List (Option ℚ) :=
  [p.revenue_total, p.revenue_managed_services, p.revenue_professional_services,
   p.revenue_other, p.revenue_organic, p.revenue_ma, p.revenue_growth,
   p.organic_growth, p.acquired_revenue, p.ebitda_total, p.ebitda_margin,
   p.ebitda_managed_services, p.ebitda_professional_services,
   p.ebitda_central_costs, p.ebitda_organic, p.ebitda_ma,
   p.margin_managed_services, p.margin_professional_services,
   p.margin_central_costs, p.capex, p.capex_pct_revenue, p.change_nwc,
   p.other_cash_flow_items, p.operating_fcf, p.minority_interest,
   p.operating_fcf_excl_minorities, p.cash_conversion, p.share_count,
   p.nibd, p.option_debt, p.adjustments, p.enterprise_value, p.equity_value,
   p.preferred_equity, p.per_share_pre, p.mip_amount, p.tso_amount,
   p.warrants_amount, p.eqv_post_dilution, p.per_share_post]

/-- `lastSection` values of the parse context. -/
inductive SectionTag where
  | revenue | ebitda | cashflow | equity
deriving DecidableEq, Repr

/-- The mutable context threaded through `mapLabelToField`. -/
structure ParseContext where
  lastSection : Option SectionTag
  lastField : Option FieldKey
deriving DecidableEq, Repr

/-! ### The ordered bilingual label table (`LABEL_MAPPINGS`)

Each entry transliterates one source regex; the original pattern is given
in the comment.  Patterns without `^` get `anyS` prepended, patterns
without `$` get `anyS` appended (the `test` semantics). -/

def labelMappingsPart1 : List (RE × FieldKey) := [

  -- ── Revenue / Omsetning ──
  -- /^(total\s+)?revenue$/
  (reSeq [ro (reSeq [rs "total", wsp]), rs "revenue"], .revenue_total),
  -- /^(total\s+)?omsetning$/
  (reSeq [ro (reSeq [rs "total", wsp]), rs "omsetning"], .revenue_total),
  -- /^(totale?\s+)?driftsinntekter$/
  (reSeq [ro (reSeq [rs "total", ro (RE.lit 'e'), wsp]), rs "driftsinntekter"], .revenue_total),
  -- /^inntekter?\s*(total)?$/
  (reSeq [rs "inntekte", ro (RE.lit 'r'), wss, ro (rs "total")], .revenue_total),
  -- /^turnover$/
  (rs "turnover", .revenue_total),
  -- /^net\s+(revenue|sales)/
  (reSeq [rs "net", wsp, reAlt [rs "revenue", rs "sales"], anyS], .revenue_total),
  -- /^netto\s+omsetning/
  (reSeq [rs "netto", wsp, rs "omsetning", anyS], .revenue_total),
  -- /^salgsinntekt/
  (reSeq [rs "salgsinntekt", anyS], .revenue_total),

  -- Revenue subcategories
  -- /managed\s+services?\s*(revenue|omsetning)?/
  (reSeq [anyS, rs "managed", wsp, rs "service", ro (RE.lit 's'), wss,
          ro (reAlt [rs "revenue", rs "omsetning"]), anyS], .revenue_managed_services),
  -- /^a&p$/
  (rs "a&p", .revenue_managed_services)
]

def labelMappingsPart2 : List (RE × FieldKey) := [
  -- /^accounting\s*(&|and)\s*payroll/
  (reSeq [rs "accounting", wss, reAlt [rs "&", rs "and"], wss, rs "payroll", anyS],
   .revenue_managed_services),
  -- /professional\s+services?\s*(revenue|omsetning)?/
  (reSeq [anyS, rs "professional", wsp, rs "service", ro (RE.lit 's'), wss,
          ro (reAlt [rs "revenue", rs "omsetning"]), anyS], .revenue_professional_services),
  -- /^advisory$/
  (rs "advisory", .revenue_professional_services),
  -- /^rådgivning$/
  (rs "rådgivning", .revenue_professional_services),
  -- /^licen[sc]e[sr]?$/
  (reSeq [rs "licen", RE.cls (fun c => c == 's' || c == 'c'), RE.lit 'e',
          ro (RE.cls (fun c => c == 's' || c == 'r'))], .revenue_other),
  -- /(other|annen|øvrig)\s*(revenue|omsetning|inntekt)/
  (reSeq [anyS, reAlt [rs "other", rs "annen", rs "øvrig"], wss,
          reAlt [rs "revenue", rs "omsetning", rs "inntekt"], anyS], .revenue_other),
  -- /organic\s*(revenue|omsetning)/
  (reSeq [anyS, rs "organic", wss, reAlt [rs "revenue", rs "omsetning"], anyS], .revenue_organic),
  -- /organisk\s*(omsetning|inntekt)/
  (reSeq [anyS, rs "organisk", wss, reAlt [rs "omsetning", rs "inntekt"], anyS], .revenue_organic),
  -- /(m&a|ma|acquired)\s*(revenue|omsetning)/
  (reSeq [anyS, reAlt [rs "m&a", rs "ma", rs "acquired"], wss,
          reAlt [rs "revenue", rs "omsetning"], anyS], .revenue_ma),
  -- /oppkjøpt\s*(omsetning|inntekt)/
  (reSeq [anyS, rs "oppkjøpt", wss, reAlt [rs "omsetning", rs "inntekt"], anyS], .revenue_ma)
]

def labelMappingsPart3 : List (RE × FieldKey) := [

  -- Acquired revenue
  -- /acquired\s+revenue/
  (reSeq [anyS, rs "acquired", wsp, rs "revenue", anyS], .acquired_revenue),
  -- /oppkjøpt\s+omsetning/
  (reSeq [anyS, rs "oppkjøpt", wsp, rs "omsetning", anyS], .acquired_revenue),

  -- Revenue growth
  -- /^(total\s+)?(revenue|omsetning)\s*(growth|vekst)/
  (reSeq [ro (reSeq [rs "total", wsp]), reAlt [rs "revenue", rs "omsetning"], wss,
          reAlt [rs "growth", rs "vekst"], anyS], .revenue_growth),
  -- /^(total\s+)?vekst\s*%?$/
  (reSeq [ro (reSeq [rs "total", wsp]), rs "vekst", wss, ro (RE.lit '%')], .revenue_growth),
  -- /^%\s*growth$/
  (reSeq [RE.lit '%', wss, rs "growth"], .revenue_growth),

  -- Organic growth
  -- /organic\s+growth/
  (reSeq [anyS, rs "organic", wsp, rs "growth", anyS], .organic_growth),
  -- /organisk\s+vekst/
  (reSeq [anyS, rs "organisk", wsp, rs "vekst", anyS], .organic_growth),

  -- ── EBITDA ──
  -- /^(total\s+)?ebitda$/
  (reSeq [ro (reSeq [rs "total", wsp]), rs "ebitda"], .ebitda_total),
  -- /^(total\s+)?ebitda\s*\(?(pre|ex|excl)/
  (reSeq [ro (reSeq [rs "total", wsp]), rs "ebitda", wss, ro (RE.lit '('),
          reAlt [rs "pre", rs "ex", rs "excl"], anyS], .ebitda_total),
  -- /^driftsresultat\s*(før\s*avskr)?/
  (reSeq [rs "driftsresultat", wss, ro (reSeq [rs "før", wss, rs "avskr"]), anyS], .ebitda_total)
]

def labelMappingsPart4 : List (RE × FieldKey) := [

  -- EBITDA margin
  -- /^ebitda\s*(%|margin|prosent)/
  (reSeq [rs "ebitda", wss, reAlt [rs "%", rs "margin", rs "prosent"], anyS], .ebitda_margin),
  -- /^ebitda-margin/
  (reSeq [rs "ebitda-margin", anyS], .ebitda_margin),
  -- /^margin\s*%?$/
  (reSeq [rs "margin", wss, ro (RE.lit '%')], .ebitda_margin),

  -- EBITDA subcategories
  -- /ebitda\s*managed/
  (reSeq [anyS, rs "ebitda", wss, rs "managed", anyS], .ebitda_managed_services),
  -- /ebitda\s*professional/
  (reSeq [anyS, rs "ebitda", wss, rs "professional", anyS], .ebitda_professional_services),
  -- /^(central|sentrale?)\s*(costs?|kostnader?)/
  (reSeq [reAlt [rs "central", reSeq [rs "sentral", ro (RE.lit 'e')]], wss,
          reAlt [reSeq [rs "cost", ro (RE.lit 's')], reSeq [rs "kostnade", ro (RE.lit 'r')]],
          anyS], .ebitda_central_costs),
  -- /ebitda\s*organic/
  (reSeq [anyS, rs "ebitda", wss, rs "organic", anyS], .ebitda_organic),
  -- /ebitda\s*organisk/
  (reSeq [anyS, rs "ebitda", wss, rs "organisk", anyS], .ebitda_organic),
  -- /^organic\s+ebitda/
  (reSeq [rs "organic", wsp, rs "ebitda", anyS], .ebitda_organic),
  -- /^organisk\s+ebitda/
  (reSeq [rs "organisk", wsp, rs "ebitda", anyS], .ebitda_organic)
]

def labelMappingsPart5 : List (RE × FieldKey) := [
  -- /ebitda\s*(m&a|ma|acquired)/
  (reSeq [anyS, rs "ebitda", wss, reAlt [rs "m&a", rs "ma", rs "acquired"], anyS], .ebitda_ma),

  -- ── Cash flow / Kontantstrøm ──
  -- /^capex$/
  (rs "capex", .capex),
  -- /^(total\s+)?capex/
  (reSeq [ro (reSeq [rs "total", wsp]), rs "capex", anyS], .capex),
  -- /^investering(er)?$/
  (reSeq [rs "investering", ro (rs "er")], .capex),
  -- /capex.*%\s*(of\s+)?rev/
  (reSeq [anyS, rs "capex", dotS, RE.lit '%', wss, ro (reSeq [rs "of", wsp]), rs "rev", anyS],
   .capex_pct_revenue),
  -- /capex\s*%/
  (reSeq [anyS, rs "capex", wss, RE.lit '%', anyS], .capex_pct_revenue),

  -- /^(change\s+in\s+)?n(et\s+)?w(orking\s+)?c(apital)?/
  (reSeq [ro (reSeq [rs "change", wsp, rs "in", wsp]), RE.lit 'n', ro (reSeq [rs "et", wsp]),
          RE.lit 'w', ro (reSeq [rs "orking", wsp]), RE.lit 'c', ro (rs "apital"), anyS],
   .change_nwc),
  -- /^endring\s*(i\s+)?arbeidskapital/
  (reSeq [rs "endring", wss, ro (reSeq [rs "i", wsp]), rs "arbeidskapital", anyS], .change_nwc),
  -- /^δ?\s*nwc/
  (reSeq [ro (RE.lit 'δ'), wss, rs "nwc", anyS], .change_nwc),
  -- /^working\s*capital\s*(change)?/
  (reSeq [rs "working", wss, rs "capital", wss, ro (rs "change"), anyS], .change_nwc)
]

def labelMappingsPart6 : List (RE × FieldKey) := [

  -- /^other\s*(cash\s*flow|cf)\s*(items)?/
  (reSeq [rs "other", wss, reAlt [reSeq [rs "cash", wss, rs "flow"], rs "cf"], wss,
          ro (rs "items"), anyS], .other_cash_flow_items),
  -- /^andre\s*(kontantstrøm|cf)\s*(poster)?/
  (reSeq [rs "andre", wss, reAlt [rs "kontantstrøm", rs "cf"], wss, ro (rs "poster"), anyS],
   .other_cash_flow_items),
  -- /^øvrige\s*(poster|kontantstrøm)/
  (reSeq [rs "øvrige", wss, reAlt [rs "poster", rs "kontantstrøm"], anyS],
   .other_cash_flow_items),

  -- /^operating\s*(fcf|free\s*cash\s*flow)$/
  (reSeq [rs "operating", wss,
          reAlt [rs "fcf", reSeq [rs "free", wss, rs "cash", wss, rs "flow"]]], .operating_fcf),
  -- /^operasjonell\s*(fcf|fri\s*kontantstrøm)/
  (reSeq [rs "operasjonell", wss, reAlt [rs "fcf", reSeq [rs "fri", wss, rs "kontantstrøm"]],
          anyS], .operating_fcf),
  -- /^op\.?\s*fcf/
  (reSeq [rs "op", ro (RE.lit '.'), wss, rs "fcf", anyS], .operating_fcf),
  -- /^(total\s+)?fcf$/
  (reSeq [ro (reSeq [rs "total", wsp]), rs "fcf"], .operating_fcf),
  -- /^fri\s*kontantstrøm/
  (reSeq [rs "fri", wss, rs "kontantstrøm", anyS], .operating_fcf),

  -- /^minority\s*(interest)?$/
  (reSeq [rs "minority", wss, ro (rs "interest")], .minority_interest),
  -- /^minoritet(sinteresse)?/
  (reSeq [rs "minoritet", ro (rs "sinteresse"), anyS], .minority_interest)
]

def labelMappingsPart7 : List (RE × FieldKey) := [

  -- /^(operating\s+)?fcf\s*(excl|ex|etter)\s*minor/
  (reSeq [ro (reSeq [rs "operating", wsp]), rs "fcf", wss,
          reAlt [rs "excl", rs "ex", rs "etter"], wss, rs "minor", anyS],
   .operating_fcf_excl_minorities),

  -- /^cash\s*conversion/
  (reSeq [rs "cash", wss, rs "conversion", anyS], .cash_conversion),
  -- /^kontant(konvertering|omregning)/
  (reSeq [rs "kontant", reAlt [rs "konvertering", rs "omregning"], anyS], .cash_conversion),

  -- ── Equity bridge / Aksjebroanalyse ──
  -- /^number\s+of\s+shares/
  (reSeq [rs "number", wsp, rs "of", wsp, rs "shares", anyS], .share_count),
  -- /^antall\s+aksjer/
  (reSeq [rs "antall", wsp, rs "aksjer", anyS], .share_count),
  -- /^aksjer\s*(utestående)?$/
  (reSeq [rs "aksjer", wss, ro (rs "utestående")], .share_count),

  -- /^nibd/
  (reSeq [rs "nibd", anyS], .nibd),
  -- /^net(to)?\s*(interest\s+bearing\s+)?debt/
  (reSeq [rs "net", ro (rs "to"), wss,
          ro (reSeq [rs "interest", wsp, rs "bearing", wsp]), rs "debt", anyS], .nibd),
  -- /^netto\s*(rente(bærende)?\s*)?gjeld/
  (reSeq [rs "netto", wss, ro (reSeq [rs "rente", ro (rs "bærende"), wss]), rs "gjeld", anyS],
   .nibd),

  -- /^option\s*debt/
  (reSeq [rs "option", wss, rs "debt", anyS], .option_debt)
]

def labelMappingsPart8 : List (RE × FieldKey) := [
  -- /^opsjonsgjeld/
  (reSeq [rs "opsjonsgjeld", anyS], .option_debt),

  -- /^adjustments?$/
  (reSeq [rs "adjustment", ro (RE.lit 's')], .adjustments),
  -- /^justeringer?$/
  (reSeq [rs "justeringe", ro (RE.lit 'r')], .adjustments),

  -- /^ev$/
  (rs "ev", .enterprise_value),
  -- /^enterprise\s+value/
  (reSeq [rs "enterprise", wsp, rs "value", anyS], .enterprise_value),
  -- /^selskapsverdi$/
  (rs "selskapsverdi", .enterprise_value),
  -- /^virksomhetsverdi$/
  (rs "virksomhetsverdi", .enterprise_value),

  -- /^eqv$/
  (rs "eqv", .equity_value),
  -- /^equity\s+value/
  (reSeq [rs "equity", wsp, rs "value", anyS], .equity_value),
  -- /^egenkapitalverdi$/
  (rs "egenkapitalverdi", .equity_value)
]

def labelMappingsPart9 : List (RE × FieldKey) := [

  -- /^pref(erred)?(\s+eq(uity)?)?$/
  (reSeq [rs "pref", ro (rs "erred"), ro (reSeq [wsp, rs "eq", ro (rs "uity")])],
   .preferred_equity),
  -- /^preferanse(aksjer)?$/
  (reSeq [rs "preferanse", ro (rs "aksjer")], .preferred_equity),

  -- /per\s+share.*before/
  (reSeq [anyS, rs "per", wsp, rs "share", dotS, rs "before", anyS], .per_share_pre),
  -- /per\s+share.*pre/
  (reSeq [anyS, rs "per", wsp, rs "share", dotS, rs "pre", anyS], .per_share_pre),
  -- /per\s+aksje.*før/
  (reSeq [anyS, rs "per", wsp, rs "aksje", dotS, rs "før", anyS], .per_share_pre),
  -- /^verdi\s*per\s*aksje\s*\(?(pre|før)/
  (reSeq [rs "verdi", wss, rs "per", wss, rs "aksje", wss, ro (RE.lit '('),
          reAlt [rs "pre", rs "før"], anyS], .per_share_pre),

  -- /^mip$/
  (rs "mip", .mip_amount),
  -- /^mip\s+share/
  (reSeq [rs "mip", wsp, rs "share", anyS], .mip_amount),

  -- /^tso$/
  (rs "tso", .tso_amount),
  -- /^tso\s+warrant/
  (reSeq [rs "tso", wsp, rs "warrant", anyS], .tso_amount)
]

def labelMappingsPart10 : List (RE × FieldKey) := [

  -- /^ex(isting)?\s*warr(a|e)nts?/
  (reSeq [rs "ex", ro (rs "isting"), wss, rs "warr",
          reAlt [rs "a", rs "e"], rs "nt", ro (RE.lit 's'), anyS], .warrants_amount),
  -- /^eksisterende\s*warrants?/
  (reSeq [rs "eksisterende", wss, rs "warrant", ro (RE.lit 's'), anyS], .warrants_amount),

  -- /eqv.*post/
  (reSeq [anyS, rs "eqv", dotS, rs "post", anyS], .eqv_post_dilution),
  -- /post\s*(mip|dilution)/
  (reSeq [anyS, rs "post", wss, reAlt [rs "mip", rs "dilution"], anyS], .eqv_post_dilution),
  -- /egenkapital.*etter\s*(utvanning)?/
  (reSeq [anyS, rs "egenkapital", dotS, rs "etter", wss, ro (rs "utvanning"), anyS],
   .eqv_post_dilution),

  -- /per\s+share.*post/
  (reSeq [anyS, rs "per", wsp, rs "share", dotS, rs "post", anyS], .per_share_post),
  -- /per\s+aksje.*etter/
  (reSeq [anyS, rs "per", wsp, rs "aksje", dotS, rs "etter", anyS], .per_share_post),
  -- /^verdi\s*per\s*aksje\s*\(?(post|etter)/
  (reSeq [rs "verdi", wss, rs "per", wss, rs "aksje", wss, ro (RE.lit '('),
          reAlt [rs "post", rs "etter"], anyS], .per_share_post)
]

/-- The full ordered table; order matters, first match wins. -/
def LABEL_MAPPINGS : List (RE × FieldKey) :=
  labelMappingsPart1 ++ labelMappingsPart2 ++ labelMappingsPart3 ++ labelMappingsPart4 ++ labelMappingsPart5 ++ labelMappingsPart6 ++ labelMappingsPart7 ++ labelMappingsPart8 ++ labelMappingsPart9 ++ labelMappingsPart10

/-! ### `mapLabelToField` -/

/-- The context update performed on a table match (source lines 352-365):
`lastField` is always set; `lastSection` is set from the field's name
prefix or list membership, otherwise left unchanged. -/
def updateCtx (ctx : ParseContext) (field : FieldKey) : ParseContext :=
  let sec : Option SectionTag :=
    if strStarts (fieldName field) "revenue" then some .revenue
    else if strStarts (fieldName field) "ebitda" then some .ebitda
    else if field = .capex || field = .change_nwc || field = .operating_fcf ||
            field = .cash_conversion || field = .other_cash_flow_items then some .cashflow
    else if field = .share_count || field = .nibd || field = .enterprise_value ||
            field = .equity_value then some .equity
    else ctx.lastSection
  { lastSection := sec, lastField := some field }

/-- First match of the ordered table. -/
def tableMatch (l : String) : Option FieldKey :=
  (LABEL_MAPPINGS.find? (fun e => e.1.rmatch l)).map (·.2)

/-- `/^%\s*vekst$/` -/
def pctVekstRe : RE := reSeq [RE.lit '%', wss, rs "vekst"]

/-- `/^%\s*growth$/` (the context-dependent copy at source line 374) -/
def pctGrowthRe : RE := reSeq [RE.lit '%', wss, rs "growth"]

/-- `/^%\s*margin$/` -/
def pctMarginRe : RE := reSeq [RE.lit '%', wss, rs "margin"]

/-- `mapLabelToField` returning the mapped field and the updated context
(the source mutates `ctx` in place; the context is always supplied by
`parseBlockWithYears`). -/
def mapLabelToField (label : String) (ctx : ParseContext) :
    Option FieldKey × ParseContext :=
  let l := normalizeLabel label
  if l = "" then (none, ctx)
  else
    match tableMatch l with
    | some field => (some field, updateCtx ctx field)
    | none =>
      -- ── Context-dependent labels ──
      if pctVekstRe.rmatch l || pctGrowthRe.rmatch l then
        if ctx.lastSection = some .ebitda then (none, ctx)
        else (some .revenue_growth, ctx)
      else if pctMarginRe.rmatch l then
        if ctx.lastField = some .ebitda_managed_services ||
           ctx.lastField = some .revenue_managed_services then
          (some .margin_managed_services, ctx)
        else if ctx.lastField = some .ebitda_professional_services ||
                ctx.lastField = some .revenue_professional_services then
          (some .margin_professional_services, ctx)
        else if ctx.lastField = some .ebitda_central_costs then
          (some .margin_central_costs, ctx)
        else if ctx.lastSection = some .ebitda || ctx.lastField = some .ebitda_total ||
                ctx.lastField = some .ebitda_organic then
          (some .ebitda_margin, ctx)
        else if ctx.lastSection = some .revenue then
          (some .ebitda_margin, ctx)
        else (some .ebitda_margin, ctx)
      else (none, ctx)

/-! ### Input parameters

A TS optional field assigned `v1 ?? undefined` creates the key even when
the value is `undefined` (so `Object.keys` counts it).  Fields are
therefore `Option (Option ℚ)`: the outer layer is key presence, the
inner the value. -/

structure InputParameters where
  shares_completion : Option (Option ℚ)
  shares_year_end : Option (Option ℚ)
  tso_warrants_count : Option (Option ℚ)
  tso_warrants_price : Option (Option ℚ)
  mip_share_pct : Option (Option ℚ)
  existing_warrants_count : Option (Option ℚ)
  existing_warrants_price : Option (Option ℚ)
  acquired_companies_multiple : Option (Option ℚ)
  acquired_with_shares_pct : Option (Option ℚ)
  ev_multiple : Option (Option ℚ)
  pref_growth_rate : Option (Option ℚ)
deriving DecidableEq, Repr

def emptyParams : InputParameters :=
  ⟨none, none, none, none, none, none, none, none, none, none, none⟩

/-- `Object.keys(params).length` -/
def InputParameters.size (p : InputParameters) : Nat :=
  [p.shares_completion.isSome, p.shares_year_end.isSome, p.tso_warrants_count.isSome,
   p.tso_warrants_price.isSome, p.mip_share_pct.isSome, p.existing_warrants_count.isSome,
   p.existing_warrants_price.isSome, p.acquired_companies_multiple.isSome,
   p.acquired_with_shares_pct.isSome, p.ev_multiple.isSome,
   p.pref_growth_rate.isSome].count true

/-- `parseInputParameters`: scan rows `1 ≤ r < endRow` for the fixed
workbook-wide labels. -/
def parseInputParameters (ws : Worksheet) (endRow labelCol : Nat) : InputParameters :=
  (List.range' 1 (endRow - 1)).foldl (fun params r =>
    let label := normalizeLabel (cellStr (ws.getCell r labelCol))
    let v1 := cellNum (ws.getCell r (labelCol + 1))
    let v2 := cellNum (ws.getCell r (labelCol + 2))
    if strHasSub label "number of ord shares completion" ||
       strHasSub label "antall ordinære aksjer ved closing" then
      { params with shares_completion := some v1 }
    else if strHasSub label "number of ord shares" || strHasSub label "number of  ord shares" ||
            strHasSub label "antall ordinære aksjer" then
      { params with shares_year_end := some v1 }
    else if (strHasSub label "tso warrants" || strHasSub label "tso-warranter") &&
            !strHasSub label "share" then
      let p := { params with tso_warrants_count := some v1 }
      match v2 with
      | some q => { p with tso_warrants_price := some (some q) }
      | none => p
    else if strHasSub label "mip share" || strHasSub label "mip andel" ||
            strHasSub label "mip-andel" then
      { params with mip_share_pct := some v1 }
    else if strHasSub label "existing warrants share" ||
            strHasSub label "eksisterende warranter" then
      let p := { params with existing_warrants_count := some v1 }
      match v2 with
      | some q => { p with existing_warrants_price := some (some q) }
      | none => p
    else if strHasSub label "acquired companies multiple" ||
            strHasSub label "oppkjøpsmultippel" then
      match v2, v1 with
      | some q, _ => { params with acquired_companies_multiple := some (some q) }
      | none, some q => { params with acquired_companies_multiple := some (some q) }
      | none, none => params
    else if strHasSub label "acquired with shares" || strHasSub label "oppkjøp med aksjer" then
      match v2, v1 with
      | some q, _ => { params with acquired_with_shares_pct := some (some q) }
      | none, some q => { params with acquired_with_shares_pct := some (some q) }
      | none, none => params
    else params) emptyParams

/-- `enrichInputParameters`: pick up an inline EV multiple and preferred
growth rate from the block rows (mutation modelled by returning the
updated record). -/
def enrichInputParameters (ws : Worksheet) (params : InputParameters)
    (startRow endRow labelCol : Nat) : InputParameters :=
  (List.range' startRow (min endRow ws.rowCount + 1 - startRow)).foldl (fun params r =>
    let label := normalizeLabel (cellStr (ws.getCell r labelCol))
    let params :=
      if label = "ev" && params.ev_multiple = none then
        match cellNum (ws.getCell r (labelCol + 1)) with
        | some m => if 0 < m && m < 100 then { params with ev_multiple := some (some m) }
                    else params
        | none => params
      else params
    if strStarts label "pref" && params.pref_growth_rate = none then
      match cellNum (ws.getCell r (labelCol + 1)) with
      | some m => if 0 < m && m < 1 then { params with pref_growth_rate := some (some m) }
                  else params
      | none => params
    else params) params

/-! ### Year detection (`findYearHeader`) -/

structure YearColumn where
  col : Nat
  year : ℚ
deriving DecidableEq, Repr

structure YearInfo where
  headerRow : Nat
  yearCols : List YearColumn
deriving DecidableEq, Repr

/-- The first run of 4 consecutive digits in a string, as a number
(the capture of `/(?:FY)?(\d{4})/`: the optional `FY` prefix never
changes which digit run the scan finds first). -/
def fourDigitsAt (l : List Char) : Option Nat :=
  match l with
  | a :: b :: c :: d :: _ =>
    if a.isDigit && b.isDigit && c.isDigit && d.isDigit then
      some ((a.toNat - 48) * 1000 + (b.toNat - 48) * 100 + (c.toNat - 48) * 10 + (d.toNat - 48))
    else none
  | _ => none

def firstFourDigitRun : List Char → Option Nat
  | [] => none
  | c :: t =>
    match fourDigitsAt (c :: t) with
    | some v => some v
    | none => firstFourDigitRun t

/-- A cell's candidate year: numbers in `[2020, 2040]`, strings with an
embedded 4-digit year in range, dates whose year is in range. -/
def yearCandidate (v : CellVal) : Option ℚ :=
  match v with
  | .num q => if 2020 ≤ q && q ≤ 2040 then some q else none
  | .str s =>
    match firstFourDigitRun s.data with
    | some y => if 2020 ≤ y && y ≤ 2040 then some (y : ℚ) else none
    | none => none
  | .date _ y => if 2020 ≤ y && y ≤ 2040 then some (y : ℚ) else none
  | .empty => none

def rowYearCandidates (ws : Worksheet) (r maxCol : Nat) : List YearColumn :=
  (List.range' 1 maxCol).filterMap fun c =>
    (yearCandidate (ws.getCell r c)).map fun y => YearColumn.mk c y

/-- `candidates.sort((a, b) => a.col - b.col)` (insertion sort; columns
are distinct, so comparator stability is irrelevant). -/
def insertByCol (x : YearColumn) : List YearColumn → List YearColumn
  | [] => [x]
  | y :: t => if x.col ≤ y.col then x :: y :: t else y :: insertByCol x t

def sortByCol : List YearColumn → List YearColumn
  | [] => []
  | x :: t => insertByCol x (sortByCol t)

/-- Filter to unique years, keeping the first (leftmost) occurrence
(the `seen : Set<number>` filter). -/
def dedupByYear (seen : List ℚ) : List YearColumn → List YearColumn
  | [] => []
  | c :: t =>
    if seen.contains c.year then dedupByYear seen t
    else c :: dedupByYear (c.year :: seen) t

def findYearHeader (ws : Worksheet) (startRow endRow minCols : Nat) : Option YearInfo :=
  let maxCol := min 30 ws.columnCount
  let lastRow := min endRow ws.rowCount
  (List.range' startRow (lastRow + 1 - startRow)).findSome? fun r =>
    let candidates := rowYearCandidates ws r maxCol
    if minCols ≤ candidates.length then
      let sorted := sortByCol candidates
      let unique := dedupByYear [] sorted
      if minCols ≤ unique.length then some ⟨r, unique⟩ else none
    else none

/-! ### Label column detection (`findLabelColumn`) -/

/-- `/revenue|omsetning|ebitda|driftsinntekt|turnover|inntekt|resultat|nibd|fcf|capex|gjeld|aksjer/i`
as a case-folded substring test over the alternatives. -/
def knownLabelsTest (s : String) : Bool :=
  ["revenue", "omsetning", "ebitda", "driftsinntekt", "turnover", "inntekt",
   "resultat", "nibd", "fcf", "capex", "gjeld", "aksjer"].any
    (fun w => strHasSub (jsToLowerStr s) w)

/-- Insertion-ordered score map (`Map<number, number>`). -/
def bumpScore : List (Nat × Nat) → Nat → List (Nat × Nat)
  | [], c => [(c, 1)]
  | (k, v) :: t, c => if k = c then (k, v + 1) :: t else (k, v) :: bumpScore t c

def findLabelColumn (ws : Worksheet) (startRow endRow : Nat) : Nat :=
  let maxCol := min 10 ws.columnCount
  let maxRow := min endRow ws.rowCount
  let scores := (List.range' startRow (maxRow + 1 - startRow)).foldl (fun sc r =>
    (List.range' 1 maxCol).foldl (fun sc c =>
      let s := cellStr (ws.getCell r c)
      if s ≠ "" && knownLabelsTest s then bumpScore sc c else sc) sc) []
  if scores = [] then 2
  else (scores.foldl
    (fun (best : Nat × Nat) kv => if best.2 < kv.2 then kv else best) (2, 0)).1

/-! ### Block segmentation -/

structure RawBlock where
  name : String
  sheetName : String
  startRow : Nat
  endRow : Nat
deriving DecidableEq, Repr

/-- `/^name:\s*/i.test(label)` (`\s*` matches the empty string, so the
test is a case-folded prefix check). -/
def nameMarkerTest (s : String) : Bool := strStarts (jsToLowerStr s) "name:"

/-- `label.replace(/^name:\s*/i, "").trim()` -/
def stripNameMarker (s : String) : String :=
  String.mk (jsTrimList ((s.data.drop 5).dropWhile isJsSpace))

/-- The first column (1..min(10, columnCount)) of row `r` whose text
matches the marker, and the name it yields (the inner loop `break`s on
the first match whether or not the name is empty). -/
def rowMarkerName (ws : Worksheet) (r : Nat) : Option String :=
  let maxCol := min 10 ws.columnCount
  ((List.range' 1 maxCol).find? (fun c => nameMarkerTest (cellStr (ws.getCell r c)))).map
    (fun c => stripNameMarker (cellStr (ws.getCell r c)))

/-- `blocks[i].endRow = blocks[i + 1].startRow` for all but the last. -/
def adjustEnds : List RawBlock → List RawBlock
  | [] => []
  | [b] => [b]
  | b1 :: b2 :: t => { b1 with endRow := b2.startRow } :: adjustEnds (b2 :: t)

/-- Strategy 1: split at `Name:` marker rows. -/
def findNameBlocks (ws : Worksheet) : List RawBlock :=
  adjustEnds ((List.range' 1 ws.rowCount).filterMap fun r =>
    match rowMarkerName ws r with
    | none => none
    | some nm => if nm ≠ "" then some (RawBlock.mk nm ws.name r (ws.rowCount + 1)) else none)

/-- `/^(scenario|case|modell|plan|budget|forecast|prognose|alternativ)\b/i` -/
def sectionPatternTest (s : String) : Bool :=
  let l := (jsToLowerStr s).data
  ["scenario", "case", "modell", "plan", "budget", "forecast", "prognose",
   "alternativ"].any fun w =>
    listHasPre w.data l &&
      (match l.drop w.length with
       | [] => true
       | c :: _ => !(c.isAlphanum || c == '_'))

/-- `/revenue|omsetning|ebitda|nibd|capex|aksjer|share|vekst|growth|margin|fcf|gjeld|debt|adjustments?|justeringer|pref|mip|tso|warrant|turnover|driftsinnt/i`
(the optional `s?` makes "adjustment" the effective literal). -/
def knownFinancialTest (s : String) : Bool :=
  ["revenue", "omsetning", "ebitda", "nibd", "capex", "aksjer", "share", "vekst",
   "growth", "margin", "fcf", "gjeld", "debt", "adjustment", "justeringer", "pref",
   "mip", "tso", "warrant", "turnover", "driftsinnt"].any
    (fun w => strHasSub (jsToLowerStr s) w)

structure SectionScanSt where
  blocks : List RawBlock
  gapStart : Option Nat
  lastNonEmptyRow : Nat
deriving Repr

/-- `blocks[blocks.length - 1].endRow = e` guarded by nonemptiness. -/
def setLastEnd : List RawBlock → Nat → List RawBlock
  | [], _ => []
  | [b], e => [{ b with endRow := e }]
  | b :: b2 :: t, e => b :: setLastEnd (b2 :: t) e

/-- Strategy 2: section headers and ≥3-row gaps. -/
def findSectionBlocks (ws : Worksheet) : List RawBlock :=
  let labelCol := findLabelColumn ws 1 ws.rowCount
  (((List.range' 1 ws.rowCount).foldl (fun (st : SectionScanSt) r =>
    let label := cellStr (ws.getCell r labelCol)
    let hasContent := (List.range' 1 (min 15 ws.columnCount)).any
      (fun c => cellStr (ws.getCell r c) ≠ "")
    if !hasContent then
      { st with gapStart := match st.gapStart with | none => some r | some g => some g }
    else
      let blocks1 :=
        match st.gapStart with
        | some g =>
          if 3 ≤ r - g && 0 < st.lastNonEmptyRow then setLastEnd st.blocks g else st.blocks
        | none => st.blocks
      let blocks2 :=
        if label ≠ "" && sectionPatternTest label && !knownFinancialTest label then
          setLastEnd blocks1 r ++ [RawBlock.mk label ws.name r (ws.rowCount + 1)]
        else blocks1
      { blocks := blocks2, gapStart := none, lastNonEmptyRow := r })
    (SectionScanSt.mk [] none 0)).blocks)

/-! ### Block parsing -/

/-- `${year}-12-31` -/
def periodDateOf (y : ℚ) : String := s!"{y}-12-31"

/-- `createEmptyPeriod`; `cy` is `new Date().getFullYear()`, made an
explicit input. -/
def createEmptyPeriod (cy : Int) (year : ℚ) : PeriodYear :=
  { year := year
    period_date := periodDateOf year
    period_label := s!"{year}"
    period_type :=
      if year < (cy : ℚ) then "actual" else if year = (cy : ℚ) then "budget" else "forecast"
    revenue_total := none, revenue_managed_services := none
    revenue_professional_services := none, revenue_other := none
    revenue_organic := none, revenue_ma := none, revenue_growth := none
    organic_growth := none, acquired_revenue := none, ebitda_total := none
    ebitda_margin := none, ebitda_managed_services := none
    ebitda_professional_services := none, ebitda_central_costs := none
    ebitda_organic := none, ebitda_ma := none, margin_managed_services := none
    margin_professional_services := none, margin_central_costs := none
    capex := none, capex_pct_revenue := none, change_nwc := none
    other_cash_flow_items := none, operating_fcf := none
    minority_interest := none, operating_fcf_excl_minorities := none
    cash_conversion := none, share_count := none, nibd := none
    option_debt := none, adjustments := none, enterprise_value := none
    equity_value := none, preferred_equity := none, per_share_pre := none
    mip_amount := none, tso_amount := none, warrants_amount := none
    eqv_post_dilution := none, per_share_post := none }

structure ParsedModelBlock where
  name : String
  periods : List PeriodYear
  unmappedRows : List String
  source : Option String
deriving DecidableEq, Repr

/-- The label a data row effectively carries: the label column's text, or
the first of columns `[1, labelCol-1, labelCol+1]` (valid, distinct from
`labelCol`) holding text longer than one character. -/
def resolvedLabel (ws : Worksheet) (labelCol r : Nat) : String :=
  let raw := cellStr (ws.getCell r labelCol)
  if raw ≠ "" then raw
  else
    match (([1, labelCol - 1, labelCol + 1].filter
        (fun c => 1 ≤ c && c ≠ labelCol)).findSome?
      (fun c =>
        let alt := cellStr (ws.getCell r c)
        if alt ≠ "" && 1 < alt.length then some alt else none)) with
    | some alt => alt
    | none => ""

/-- The known non-data rows skipped before mapping. -/
def isSkippedLabel (lower : String) : Bool :=
  strStarts lower "name:" || lower = "input" || lower = "inndata" ||
  lower = "consolidated p&l" || lower = "konsolidert resultat" ||
  lower = "comment" || lower = "kommentar" ||
  ["p&l", "resultat", "resultatregnskap", "balanse", "balance", "summary",
   "sammendrag", "note", "notes", "noter"].contains lower

structure ScanState where
  periods : List PeriodYear
  unmapped : List String
  ctx : ParseContext
deriving Repr

/-- Write one row's values into the period slots (per year column). -/
def applyRowValues (ws : Worksheet) (r : Nat) (field : FieldKey)
    (yearCols : List YearColumn) (periods : List PeriodYear) : List PeriodYear :=
  List.zipWith (fun p yc =>
    match cellNum (ws.getCell r yc.col) with
    | some v => setField field v p
    | none => p) periods yearCols

/-- One iteration of the data-row loop of `parseBlockWithYears`. -/
def stepRow (ws : Worksheet) (labelCol : Nat) (yi : YearInfo)
    (st : ScanState) (r : Nat) : ScanState :=
  if r = yi.headerRow then st
  else
    let rawLabel := resolvedLabel ws labelCol r
    if rawLabel = "" then st
    else
      let lower := jsToLowerStr rawLabel
      if isSkippedLabel lower then st
      else
        match mapLabelToField rawLabel st.ctx with
        | (none, ctx2) =>
          let hasData := yi.yearCols.any (fun yc => (cellNum (ws.getCell r yc.col)).isSome)
          if hasData && 1 < rawLabel.length then
            { st with unmapped := st.unmapped ++ [rawLabel], ctx := ctx2 }
          else { st with ctx := ctx2 }
        | (some field, ctx2) =>
          { st with periods := applyRowValues ws r field yi.yearCols st.periods, ctx := ctx2 }

def initScan (cy : Int) (yi : YearInfo) : ScanState :=
  ⟨yi.yearCols.map (fun yc => createEmptyPeriod cy yc.year), [], ⟨none, none⟩⟩

/-- The data-row scan of `parseBlockWithYears` over `startRow ≤ r < endRow`. -/
def blockScan (cy : Int) (ws : Worksheet) (labelCol : Nat) (yi : YearInfo)
    (startRow endRow : Nat) : ScanState :=
  (List.range' startRow (endRow - startRow)).foldl (stepRow ws labelCol yi) (initScan cy yi)

/-- The six key fields of the `hasAnyData` check. -/
def keySixTest (p : PeriodYear) : Bool :=
  p.revenue_total.isSome || p.ebitda_total.isSome || p.enterprise_value.isSome ||
  p.equity_value.isSome || p.nibd.isSome || p.share_count.isSome

/-- "some field other than the four metadata keys is non-null". -/
def isNonEmptyPeriod (p : PeriodYear) : Bool := p.fieldList.any (·.isSome)

def noYearsWarning (nm sheet : String) (a b : Nat) : String :=
  s!"Blokk \"{nm}\" (ark \"{sheet}\", rad {a}-{b}): Ingen årstall funnet i kolonneoverskrifter. Hopper over."

def noDataWarning (nm sheet : String) : String :=
  s!"Blokk \"{nm}\" (ark \"{sheet}\"): Ingen gjenkjente finansielle data funnet. Hopper over."

def emptyPeriodsWarning (nm sheet : String) : String :=
  s!"Blokk \"{nm}\" (ark \"{sheet}\"): Alle perioder er tomme. Hopper over."

def unmappedWarning (nm : String) (rows : List String) : String :=
  let k := rows.length
  let joined := String.intercalate ", " rows
  s!"Blokk \"{nm}\": {k} ukjente rader: {joined}"

def parseBlockWithYears (cy : Int) (ws : Worksheet) (startRow endRow : Nat)
    (nm : String) (labelCol : Nat) (yi : YearInfo) (warnings : List String) :
    Option ParsedModelBlock × List String :=
  let st := blockScan cy ws labelCol yi startRow endRow
  let hasAnyData := st.periods.any keySixTest
  if !hasAnyData then (none, warnings ++ [noDataWarning nm ws.name])
  else
    let nonEmptyPeriods := st.periods.filter isNonEmptyPeriod
    if nonEmptyPeriods = [] then (none, warnings ++ [emptyPeriodsWarning nm ws.name])
    else
      let warnings2 :=
        if st.unmapped ≠ [] then warnings ++ [unmappedWarning nm st.unmapped] else warnings
      let sheet := ws.name
      let srcEnd := min endRow ws.rowCount
      (some ⟨nm, nonEmptyPeriods, st.unmapped, some s!"{sheet}:{startRow}-{srcEnd}"⟩,
       warnings2)

def parseBlock (cy : Int) (ws : Worksheet) (startRow endRow : Nat)
    (fallbackName : String) : Option ParsedModelBlock × List String :=
  let effectiveEnd := min endRow (ws.rowCount + 1)
  let labelCol := findLabelColumn ws startRow effectiveEnd
  match findYearHeader ws startRow effectiveEnd 2 with
  | none =>
    match findYearHeader ws startRow effectiveEnd 1 with
    | none => (none, [noYearsWarning fallbackName ws.name startRow effectiveEnd])
    | some relaxed =>
      parseBlockWithYears cy ws startRow effectiveEnd fallbackName labelCol relaxed []
  | some yearInfo =>
    parseBlockWithYears cy ws startRow effectiveEnd fallbackName labelCol yearInfo []

/-! ### The orchestrator (`parseExcelBuffer`) -/

structure OrchState where
  allModels : List ParsedModelBlock
  warnings : List String
  inputParameters : InputParameters
deriving Repr

/-- One iteration of the block loop: append the produced model (if any)
and the block's warnings. -/
def parseRawStep (cy : Int) (ws : Worksheet)
    (acc : List ParsedModelBlock × List String) (b : RawBlock) :
    List ParsedModelBlock × List String :=
  let (m, w) := parseBlock cy ws b.startRow b.endRow b.name
  (acc.1 ++ (match m with | some mm => [mm] | none => []), acc.2 ++ w)

/-- Parse a list of raw blocks, appending produced models and warnings. -/
def parseRawBlocks (cy : Int) (ws : Worksheet) (blocks : List RawBlock) :
    List ParsedModelBlock × List String :=
  blocks.foldl (parseRawStep cy ws) ([], [])

/-- `filename.replace(/\.[^.]+$/, "")`. -/
def stripExtension (l : List Char) : List Char :=
  let rev := l.reverse
  let tail := rev.takeWhile (fun c => !(c == '.'))
  if tail ≠ [] && tail.length < rev.length then (rev.drop (tail.length + 1)).reverse
  else l

/-- The whole-sheet fallback model name. -/
def wholeSheetName (multi : Bool) (filename : Option String) (ws : Worksheet) : String :=
  if multi then ws.name
  else
    match filename with
    | some f =>
      jsTrim (String.mk ((stripExtension f.data).map
        (fun c => if c == '-' || c == '_' then ' ' else c)))
    | none => ws.name

/-- Per-sheet body of the orchestrator loop. -/
def processSheet (cy : Int) (multi : Bool) (filename : Option String)
    (st : OrchState) (ws : Worksheet) : OrchState :=
  if ws.rowCount = 0 || ws.columnCount = 0 then
    let sheet := ws.name
    { st with warnings := st.warnings ++ [s!"Ark \"{sheet}\" er tomt. Hopper over."] }
  else
    match findNameBlocks ws with
    | b0 :: rest =>
      -- Strategy 1: "Name:" blocks
      let nameBlocks := b0 :: rest
      let labelCol := findLabelColumn ws 1 b0.startRow
      let params := parseInputParameters ws b0.startRow labelCol
      let ip1 :=
        if 0 < params.size && st.inputParameters.size = 0 then params
        else st.inputParameters
      let ip2 := enrichInputParameters ws ip1 b0.startRow ws.rowCount labelCol
      let (models, warns) := parseRawBlocks cy ws nameBlocks
      { allModels := st.allModels ++ models, warnings := st.warnings ++ warns,
        inputParameters := ip2 }
    | [] =>
      let sectionBlocks := findSectionBlocks ws
      if 1 < sectionBlocks.length then
        -- Strategy 2: section-style blocks
        let (models, warns) := parseRawBlocks cy ws sectionBlocks
        { st with allModels := st.allModels ++ models, warnings := st.warnings ++ warns }
      else
        -- Strategy 3: whole sheet as one model
        let sheetModelName := wholeSheetName multi filename ws
        let labelCol := findLabelColumn ws 1 ws.rowCount
        let paramsEndRow :=
          match findYearHeader ws 1 ws.rowCount 2 with
          | some yi => yi.headerRow
          | none => min 20 ws.rowCount
        let params := parseInputParameters ws paramsEndRow labelCol
        let ip1 :=
          if 0 < params.size && st.inputParameters.size = 0 then params
          else st.inputParameters
        let ip2 := enrichInputParameters ws ip1 1 ws.rowCount labelCol
        let (m, w) := parseBlock cy ws 1 (ws.rowCount + 1) sheetModelName
        { allModels := st.allModels ++ (match m with | some mm => [mm] | none => []),
          warnings := st.warnings ++ w, inputParameters := ip2 }

/-- One sheet's diagnostic lines for the failure message. -/
def sheetDiag (ws : Worksheet) : List String :=
  let firstRows := (List.range' 1 (min 10 ws.rowCount)).filterMap (fun r =>
    let cells := (List.range' 1 (min 8 ws.columnCount)).filterMap (fun c =>
      let v := cellStr (ws.getCell r c)
      if v ≠ "" then
        let colL := Char.ofNat (64 + c)
        let vv := String.mk (v.data.take 30)
        some s!"{colL}:\"{vv}\""
      else none)
    if cells ≠ [] then
      let joined := String.intercalate ", " cells
      some s!"  Rad {r}: {joined}"
    else none)
  let sheet := ws.name
  let rc := ws.rowCount
  let cc := ws.columnCount
  [s!"Ark \"{sheet}\" ({rc} rader, {cc} kolonner):"] ++ firstRows

/-- The diagnostic failure raised when no blocks were produced. -/
def diagMessage (wb : Workbook) : String :=
  let body := String.intercalate "\n" (wb.worksheets.map sheetDiag).flatten
  "Kunne ikke finne finansielle data i filen.\n\n" ++
  "Parseren leter etter:\n" ++
  "  • Rader med labels som \"Revenue\", \"EBITDA\", \"Omsetning\", \"Driftsinntekter\" osv.\n" ++
  "  • Kolonner med årstall (2020-2040)\n" ++
  "  • Evt. \"Name:\" rader for å skille modellblokker\n\n" ++
  "Filens struktur:\n" ++ body

structure ExcelParseResult where
  models : List ParsedModelBlock
  inputParameters : InputParameters
  warnings : List String
deriving DecidableEq, Repr

/-- The initial warnings and the sheet loop of `parseExcelBuffer`. -/
def processAllSheets (cy : Int) (wb : Workbook) (filename : Option String) : OrchState :=
  let sheetNames := wb.worksheets.map (·.name)
  let w0 :=
    if 1 < sheetNames.length then
      let k := sheetNames.length
      let joined := String.intercalate ", " sheetNames
      [s!"Fant {k} ark: {joined}"]
    else []
  wb.worksheets.foldl (processSheet cy (1 < sheetNames.length) filename)
    (OrchState.mk [] w0 emptyParams)

/-- `parseExcelBuffer` (after the decode step): the whole parse, with the
throw branches as `Except.error`. -/
def parseExcelBuffer (cy : Int) (wb : Workbook) (filename : Option String) :
    Except String ExcelParseResult :=
  if wb.worksheets.length = 0 then .error "Filen inneholder ingen ark (sheets)."
  else
    let st := processAllSheets cy wb filename
    if st.allModels.length = 0 then .error (diagMessage wb)
    else .ok ⟨st.allModels, st.inputParameters, st.warnings⟩

/-- The models of a parse outcome (`[]` on the error side). -/
def exceptModels (r : Except String ExcelParseResult) : List ParsedModelBlock :=
  match r with
  | .error _ => []
  | .ok res => res.models

instance : DecidableEq (Except String ExcelParseResult) := fun a b =>
  match a, b with
  | .error x, .error y => decidable_of_iff (x = y) (by simp)
  | .error _, .ok _ => isFalse (by simp)
  | .ok _, .error _ => isFalse (by simp)
  | .ok x, .ok y => decidable_of_iff (x = y) (by simp)

/-! ### Concrete worksheets used by the claim theorems -/

/-- A sheet whose section heuristics find exactly one block ("Scenario A")
while no marker blocks exist. -/
def wsC2 : Worksheet := ⟨"Sheet1", [
  [.str "Scenario A", .num 2025, .num 2026],
  [.str "Revenue", .num 10, .num 20]]⟩

/-- A sheet whose year header is in descending year order. -/
def wsC6a : Worksheet := ⟨"Sheet1", [
  [.empty, .num 2026, .num 2025],
  [.str "Revenue", .num 10, .num 20]]⟩

/-- A sheet with the ascending header `[2025, 2026, 2027]`. -/
def wsC6b : Worksheet := ⟨"Sheet1", [
  [.empty, .num 2025, .num 2026, .num 2027],
  [.str "Revenue", .num 1, .num 2, .num 3]]⟩

/-- A sheet whose only content is a `Name:` marker in column 11. -/
def wsC7 : Worksheet := ⟨"Blad1", [
  [.empty, .empty, .empty, .empty, .empty, .empty, .empty, .empty, .empty, .empty,
   .str "Name: Zed"]]⟩

/-- A marker row with surrounding whitespace in the name. -/
def wsC7w : Worksheet := ⟨"Blad1", [
  [.str "Name:  Alpha Plan "],
  [.empty, .num 2025, .num 2026],
  [.str "Revenue", .num 1, .num 2]]⟩

/-- A block containing an unmatched single-character label with data. -/
def wsC8 : Worksheet := ⟨"Sheet1", [
  [.empty, .num 2025, .num 2026],
  [.str "Revenue", .num 1, .num 2],
  [.str "X", .num 3, .num 4]]⟩

/-- A block containing an unmatched two-character label with data. -/
def wsC8w : Worksheet := ⟨"Sheet1", [
  [.empty, .num 2025, .num 2026],
  [.str "Revenue", .num 1, .num 2],
  [.str "XQ", .num 3, .num 4]]⟩

/-- The year columns `parseBlock` detects on `wsC8w`. -/
def yiC8 : YearInfo := ⟨1, [⟨2, 2025⟩, ⟨3, 2026⟩]⟩

/-- A small one-model workbook (year 2025 present, so the period's
`period_type` depends on the wall-clock year). -/
def wb9 : Workbook := ⟨[⟨"Sheet1", [
  [.empty, .num 2025, .num 2026],
  [.str "Revenue", .num 10, .num 20]]⟩]⟩

/-- A one-model workbook for the key-field invariant. -/
def wb10 : Workbook := ⟨[⟨"Model", [
  [.empty, .num 2027, .num 2028],
  [.str "Revenue", .num 7, .num 8],
  [.str "EBITDA", .num 3, .num 4]]⟩]⟩

/-- A block whose only mapped field is `capex` (outside the six key
fields), so `hasAnyData` fails despite non-null data. -/
def wsCap : Worksheet := ⟨"Sheet1", [
  [.empty, .num 2025, .num 2026],
  [.str "Capex", .num 5, .num 6]]⟩

/-- The year columns on `wsCap`. -/
def yiCap : YearInfo := ⟨1, [⟨2, 2025⟩, ⟨3, 2026⟩]⟩

/-! ### Claim theorems -/

/-- C1: the spec says a bare "% growth" resolves to no field when the
last section is EBITDA.  In the code, the table entry `/^%\s*growth$/ →
revenue_growth` (source line 225) precedes the context-dependent check
(line 374), so "% growth" maps to `revenue_growth` in every context —
the EBITDA-section branch the code's own comment describes is reachable
only for the Norwegian twin "% vekst".  This theorem evaluates the
mapper at the failing input: with `lastSection = ebitda`, "% growth"
still returns `revenue_growth` (and flips the section to revenue), while
"% vekst" behaves as the spec describes. -/
theorem pct_growth_shadowed_in_ebitda_section :
    mapLabelToField "% growth" ⟨some .ebitda, some .ebitda_total⟩
      = (some .revenue_growth, ⟨some .revenue, some .revenue_growth⟩) ∧
    (mapLabelToField "% vekst" ⟨some .ebitda, some .ebitda_total⟩).1 = none := by
  constructor
  · decide
  · decide

/-- C2 counterexample: on `wsC2` the marker strategy yields no blocks and
the section heuristics yield exactly one block ("Scenario A"), yet the
parse's only model is the whole-sheet fallback named from the sheet
("Sheet1") — the single section block is not used, contradicting the
claim that the first strategy yielding ≥ 1 block wins. -/
theorem single_section_block_ignored_cx :
    findNameBlocks wsC2 = [] ∧
    (findSectionBlocks wsC2).map (·.name) = ["Scenario A"] ∧
    (exceptModels (parseExcelBuffer 2025 (Workbook.mk [wsC2]) none)).map (·.name)
      = ["Sheet1"] := by
  refine ⟨by decide, by decide, by decide⟩

/-- C2 (amended): the marker strategy wins with ≥ 1 block; the section
heuristics are used only when they yield **more than one** block; in
every other case (including exactly one section block) the whole-sheet
fallback is applied. -/
theorem strategy_order_amended (cy : Int) (multi : Bool) (f : Option String)
    (st : OrchState) (ws : Worksheet)
    (hr : ws.rowCount ≠ 0) (hcc : ws.columnCount ≠ 0) :
    (findNameBlocks ws ≠ [] →
      (processSheet cy multi f st ws).allModels
        = st.allModels ++ (parseRawBlocks cy ws (findNameBlocks ws)).1) ∧
    (findNameBlocks ws = [] → 1 < (findSectionBlocks ws).length →
      (processSheet cy multi f st ws).allModels
        = st.allModels ++ (parseRawBlocks cy ws (findSectionBlocks ws)).1) ∧
    (findNameBlocks ws = [] → (findSectionBlocks ws).length ≤ 1 →
      (processSheet cy multi f st ws).allModels
        = st.allModels ++ (parseRawBlocks cy ws
            [RawBlock.mk (wholeSheetName multi f ws) ws.name 1 (ws.rowCount + 1)]).1) := by
  unfold processSheet
  rw [if_neg (by simp [hr, hcc])]
  refine ⟨?_, ?_, ?_⟩
  · intro hnb
    cases hfnb : findNameBlocks ws with
    | nil => exact absurd hfnb hnb
    | cons b0 rest => simp [hfnb, parseRawBlocks, parseRawStep]
  · intro hnb hsec
    rw [hnb]
    simp only [if_pos hsec]
  · intro hnb hsec
    rw [hnb]
    rw [if_neg (by omega)]
    simp [parseRawBlocks, parseRawStep]

/-- C2 witness: the amended selection applied to the concrete sheet
`wsC2` (no marker blocks, exactly one section block): the whole-sheet
fallback block is parsed. -/
theorem strategy_order_amended_witness :
    (processSheet 2025 false none (OrchState.mk [] [] emptyParams) wsC2).allModels
      = [] ++ (parseRawBlocks 2025 wsC2
          [RawBlock.mk (wholeSheetName false none wsC2) wsC2.name 1 (wsC2.rowCount + 1)]).1 :=
  (strategy_order_amended 2025 false none (OrchState.mk [] [] emptyParams) wsC2
    (by decide) (by decide)).2.2 (by decide) (by decide)

/-- Claim-side reading of the locale rule: the separator whose first
occurrence comes later in the string is the decimal mark. -/
def laterSeparator (l : List Char) : Char :=
  if idxOfChar '.' l < idxOfChar ',' l then ',' else '.'

/-- Cleaning a numeric string under decimal mark `mark`: whitespace and
the other separator are dropped as grouping, the first `mark` becomes
the decimal dot. -/
def cleanWithDecimalMark (mark : Char) (l : List Char) : List Char :=
  if mark = ',' then
    replaceFirstChar ',' '.' (l.filter (fun c => !(isJsSpace c || c == '.')))
  else
    l.filter (fun c => !(isJsSpace c || c == ','))

/-- C3: for any trimmed cell text containing both a comma and a dot,
`cellNum` parses it with the later-occurring separator as the decimal
mark; and the spec's concrete cases "1 105,0" / "1,105.0" / "1.105,0" /
"-" / "--" / "n/a" behave as claimed. -/
theorem cellNum_later_separator (s : String)
    (hc : ',' ∈ (jsTrim s).data) (hd : '.' ∈ (jsTrim s).data) :
    (cellNum (.str s) = jsParseFloat (String.mk
        (cleanWithDecimalMark (laterSeparator (jsTrim s).data) (jsTrim s).data))) ∧
    cellNum (.str "1 105,0") = some 1105 ∧
    cellNum (.str "1,105.0") = some 1105 ∧
    cellNum (.str "1.105,0") = some 1105 ∧
    cellNum (.str "-") = none ∧
    cellNum (.str "--") = none ∧
    cellNum (.str "n/a") = none := by
  refine ⟨?_, by decide, by decide, by decide, by decide, by decide, by decide⟩
  show cellNumStr (jsTrim s) = _
  set t := jsTrim s with ht
  have hne : ∀ (u : String), ',' ∉ u.data → t ≠ u := fun u hu heq => hu (heq ▸ hc)
  have h1 : t ≠ "" := hne "" (by decide)
  have h2 : t ≠ "-" := hne "-" (by decide)
  have h3 : t ≠ "--" := hne "--" (by decide)
  have h4 : t ≠ "n/a" := hne "n/a" (by decide)
  have h5 : t ≠ "N/A" := hne "N/A" (by decide)
  have hC : t.data.contains ',' = true := List.elem_eq_true_of_mem hc
  have hD : t.data.contains '.' = true := List.elem_eq_true_of_mem hd
  unfold cellNumStr
  rw [if_neg (by simp [h1, h2, h3, h4, h5])]
  simp only [hC, hD, Bool.not_true, Bool.and_false, Bool.and_true, if_false, if_true,
    Bool.false_eq_true]
  unfold cleanWithDecimalMark laterSeparator
  by_cases hlt : idxOfChar '.' t.data < idxOfChar ',' t.data
  · rw [if_pos hlt, if_pos hlt, if_pos rfl]
  · rw [if_neg hlt, if_neg hlt, if_neg (by decide)]

/-- C3 witness at `"1.234,5"` (dot first, so the comma is the decimal
mark). -/
theorem cellNum_later_separator_witness :
    (cellNum (.str "1.234,5") = jsParseFloat (String.mk
        (cleanWithDecimalMark (laterSeparator (jsTrim "1.234,5").data)
          (jsTrim "1.234,5").data))) ∧
    cellNum (.str "1 105,0") = some 1105 ∧
    cellNum (.str "1,105.0") = some 1105 ∧
    cellNum (.str "1.105,0") = some 1105 ∧
    cellNum (.str "-") = none ∧
    cellNum (.str "--") = none ∧
    cellNum (.str "n/a") = none :=
  cellNum_later_separator "1.234,5" (by decide) (by decide)

/-- Evaluation of "% margin" in an arbitrary context (the closed parts of
the mapper computed away). -/
theorem mapLabel_pct_margin_cases (c : ParseContext) : mapLabelToField "% margin" c =
    (if c.lastField = some .ebitda_managed_services ||
        c.lastField = some .revenue_managed_services then
       (some .margin_managed_services, c)
     else if c.lastField = some .ebitda_professional_services ||
             c.lastField = some .revenue_professional_services then
       (some .margin_professional_services, c)
     else if c.lastField = some .ebitda_central_costs then (some .margin_central_costs, c)
     else if c.lastSection = some .ebitda || c.lastField = some .ebitda_total ||
             c.lastField = some .ebitda_organic then (some .ebitda_margin, c)
     else if c.lastSection = some .revenue then (some .ebitda_margin, c)
     else (some .ebitda_margin, c)) := rfl

/-- C4: "EBITDA managed services" maps to a per-segment field (the table
resolves it to the managed-services segment via the unanchored
`/managed\s+services?/` entry, as `revenue_managed_services`), and a
"% margin" row mapped immediately afterwards resolves to
`margin_managed_services`, not the blended `ebitda_margin`; with no
segment field as the last-matched field, "% margin" falls back to
`ebitda_margin`. -/
theorem pct_margin_segment_context (ctx ctx2 : ParseContext)
    (h : ∀ fk : FieldKey, ctx2.lastField = some fk →
      fk ∉ ([.ebitda_managed_services, .revenue_managed_services,
             .ebitda_professional_services, .revenue_professional_services,
             .ebitda_central_costs] : List FieldKey)) :
    ((mapLabelToField "EBITDA managed services" ctx).1 = some .revenue_managed_services ∧
     (mapLabelToField "% margin" (mapLabelToField "EBITDA managed services" ctx).2).1
        = some .margin_managed_services) ∧
    (mapLabelToField "% margin" ctx2).1 = some .ebitda_margin := by
  refine ⟨⟨rfl, rfl⟩, ?_⟩
  have h1 : ctx2.lastField ≠ some FieldKey.ebitda_managed_services :=
    fun hh => h _ hh (by decide)
  have h2 : ctx2.lastField ≠ some FieldKey.revenue_managed_services :=
    fun hh => h _ hh (by decide)
  have h3 : ctx2.lastField ≠ some FieldKey.ebitda_professional_services :=
    fun hh => h _ hh (by decide)
  have h4 : ctx2.lastField ≠ some FieldKey.revenue_professional_services :=
    fun hh => h _ hh (by decide)
  have h5 : ctx2.lastField ≠ some FieldKey.ebitda_central_costs :=
    fun hh => h _ hh (by decide)
  rw [mapLabel_pct_margin_cases ctx2]
  split_ifs <;> simp_all

/-- C4 witness: a fresh context. -/
theorem pct_margin_segment_context_witness :
    ((mapLabelToField "EBITDA managed services" ⟨none, none⟩).1
        = some FieldKey.revenue_managed_services ∧
     (mapLabelToField "% margin"
        (mapLabelToField "EBITDA managed services" ⟨none, none⟩).2).1
        = some FieldKey.margin_managed_services) ∧
    (mapLabelToField "% margin" ⟨none, none⟩).1 = some FieldKey.ebitda_margin :=
  pct_margin_segment_context ⟨none, none⟩ ⟨none, none⟩ (by simp)

/-- C5: the parse fails exactly when the sheet loop produced zero models
(including the degenerate no-worksheets case); on success the result
carries all accumulated models and warnings, and is returned rather than
raised. -/
theorem parse_error_iff_no_models (cy : Int) (wb : Workbook) (f : Option String) :
    (match parseExcelBuffer cy wb f with
     | .error _ => (processAllSheets cy wb f).allModels = []
     | .ok res =>
        res.models = (processAllSheets cy wb f).allModels ∧
        res.models ≠ [] ∧
        res.warnings = (processAllSheets cy wb f).warnings ∧
        res.inputParameters = (processAllSheets cy wb f).inputParameters) := by
  unfold parseExcelBuffer
  by_cases h0 : wb.worksheets.length = 0
  · rw [if_pos h0]
    have : wb.worksheets = [] := List.length_eq_zero.mp h0
    simp [processAllSheets, this]
  · rw [if_neg h0]
    by_cases h1 : (processAllSheets cy wb f).allModels.length = 0
    · rw [if_pos h1]
      exact List.length_eq_zero.mp h1
    · rw [if_neg h1]
      refine ⟨rfl, ?_, rfl, rfl⟩
      intro hh
      exact h1 (by rw [show (processAllSheets cy wb f).allModels = [] from hh]; rfl)

/-- `setField` never touches the metadata fields. -/
theorem setField_meta (f : FieldKey) (v : ℚ) (p : PeriodYear) :
    ((setField f v p).year, (setField f v p).period_date) = (p.year, p.period_date) := by
  cases f <;> rfl

theorem applyRowValues_proj (ws : Worksheet) (r : Nat) (fl : FieldKey) :
    ∀ (ys : List YearColumn) (ps : List PeriodYear), ps.length = ys.length →
    (applyRowValues ws r fl ys ps).map (fun p => (p.year, p.period_date))
      = ps.map (fun p => (p.year, p.period_date)) := by
  intro ys
  induction ys with
  | nil =>
    intro ps h
    cases ps with
    | nil => rfl
    | cons a t => simp at h
  | cons y yt ih =>
    intro ps h
    cases ps with
    | nil => simp at h
    | cons p pt =>
      simp only [applyRowValues, List.zipWith_cons_cons, List.map_cons] at *
      congr 1
      · cases hv : cellNum (ws.getCell r y.col) with
        | none => rfl
        | some v => exact setField_meta fl v p
      · exact ih pt (by simpa using h)

theorem foldl_preserves {σ α : Type} (P : σ → Prop) (f : σ → α → σ)
    (hf : ∀ s a, P s → P (f s a)) : ∀ (l : List α) (s : σ), P s → P (l.foldl f s) := by
  intro l
  induction l with
  | nil => intro s hs; exact hs
  | cons a t ih => intro s hs; exact ih _ (hf s a hs)

/-- The data-row scan never changes a period's year or date. -/
theorem stepRow_proj (ws : Worksheet) (lc : Nat) (yi : YearInfo) (st : ScanState) (r : Nat)
    (hlen : st.periods.length = yi.yearCols.length) :
    (stepRow ws lc yi st r).periods.map (fun p => (p.year, p.period_date))
      = st.periods.map (fun p => (p.year, p.period_date)) := by
  unfold stepRow
  split
  · rfl
  · dsimp only
    split
    · rfl
    · split
      · rfl
      · split
        next x ctx2 heq =>
          split
          · rfl
          · rfl
        next x fl ctx2 heq =>
          exact applyRowValues_proj ws r fl yi.yearCols st.periods hlen

/-- The scan's periods keep exactly the years/dates set up from the year
columns by `initScan`. -/
theorem blockScan_proj (cy : Int) (ws : Worksheet) (lc : Nat) (yi : YearInfo)
    (sr er : Nat) :
    (blockScan cy ws lc yi sr er).periods.map (fun p => (p.year, p.period_date))
      = yi.yearCols.map (fun yc => (yc.year, periodDateOf yc.year)) := by
  have base : (initScan cy yi).periods.map (fun p => (p.year, p.period_date))
      = yi.yearCols.map (fun yc => (yc.year, periodDateOf yc.year)) := by
    simp only [initScan, List.map_map]
    rfl
  exact foldl_preserves
    (fun st => st.periods.map (fun p => (p.year, p.period_date))
      = yi.yearCols.map (fun yc => (yc.year, periodDateOf yc.year)))
    (stepRow ws lc yi)
    (fun st a hst => by
      dsimp only at hst ⊢
      rw [stepRow_proj ws lc yi st a ?_, hst]
      have := congrArg List.length hst
      simpa using this)
    _ _ base

theorem dedupByYear_nodup : ∀ (l : List YearColumn) (seen : List ℚ),
    ((dedupByYear seen l).map (·.year)).Nodup ∧
    (∀ a ∈ dedupByYear seen l, a.year ∉ seen) := by
  intro l
  induction l with
  | nil => intro seen; exact ⟨List.nodup_nil, by simp [dedupByYear]⟩
  | cons c t ih =>
    intro seen
    unfold dedupByYear
    by_cases h : seen.contains c.year = true
    · rw [if_pos h]
      exact ih seen
    · rw [if_neg h]
      have hm : c.year ∉ seen := fun hmem => h (List.elem_eq_true_of_mem hmem)
      obtain ⟨ihn, ihs⟩ := ih (c.year :: seen)
      refine ⟨?_, ?_⟩
      · rw [List.map_cons, List.nodup_cons]
        refine ⟨?_, ihn⟩
        intro hc
        obtain ⟨a, ha, hay⟩ := List.mem_map.mp hc
        exact (ihs a ha) (by simp [hay])
      · intro a ha
        rcases List.mem_cons.mp ha with rfl | ha2
        · exact hm
        · intro hs
          exact (ihs a ha2) (List.mem_cons_of_mem _ hs)

/-- The year columns `findYearHeader` returns carry pairwise-distinct
years (the dedup keeps the leftmost column of each year). -/
theorem findYearHeader_nodup (ws : Worksheet) (sr er mc : Nat) (yi : YearInfo)
    (h : findYearHeader ws sr er mc = some yi) :
    (yi.yearCols.map (·.year)).Nodup := by
  unfold findYearHeader at h
  obtain ⟨r, _, hr⟩ := List.exists_of_findSome?_eq_some h
  dsimp only at hr
  by_cases h1 : mc ≤ (rowYearCandidates ws r (min 30 ws.columnCount)).length
  · rw [if_pos h1] at hr
    by_cases h2 : mc ≤ (dedupByYear []
        (sortByCol (rowYearCandidates ws r (min 30 ws.columnCount)))).length
    · rw [if_pos h2] at hr
      cases hr
      exact (dedupByYear_nodup _ []).1
    · rw [if_neg h2] at hr
      cases hr
  · rw [if_neg h1] at hr
    cases hr

theorem parseBlockWithYears_years (cy : Int) (ws : Worksheet) (sr er : Nat)
    (nm : String) (lc : Nat) (yi : YearInfo) (w : List String) (m : ParsedModelBlock)
    (h : (parseBlockWithYears cy ws sr er nm lc yi w).1 = some m)
    (hn : (yi.yearCols.map (·.year)).Nodup) :
    (m.periods.map (·.year)).Nodup ∧
    ∀ p ∈ m.periods, p.period_date = periodDateOf p.year := by
  have hproj := blockScan_proj cy ws lc yi sr er
  have hyears : (blockScan cy ws lc yi sr er).periods.map (·.year)
      = yi.yearCols.map (·.year) := by
    have := congrArg (List.map Prod.fst) hproj
    simpa [List.map_map, Function.comp] using this
  have hmem : ∀ p ∈ (blockScan cy ws lc yi sr er).periods,
      p.period_date = periodDateOf p.year := by
    intro p hp
    have : (p.year, p.period_date) ∈
        yi.yearCols.map (fun yc => (yc.year, periodDateOf yc.year)) := by
      rw [← hproj]
      exact List.mem_map_of_mem _ hp
    obtain ⟨yc, _, hyc⟩ := List.mem_map.mp this
    have h1 : yc.year = p.year := congrArg Prod.fst hyc
    have h2 : periodDateOf yc.year = p.period_date := congrArg Prod.snd hyc
    rw [← h2, h1]
  unfold parseBlockWithYears at h
  dsimp only at h
  split at h
  · simp at h
  · split at h
    · simp at h
    · simp only [Option.some.injEq] at h
      subst h
      constructor
      · refine hn.sublist ?_
        rw [← hyears]
        exact (List.filter_sublist _).map _
      · intro p hp
        exact hmem p (List.mem_of_mem_filter hp)

theorem parseBlock_years (cy : Int) (ws : Worksheet) (sr er : Nat) (nm : String)
    (m : ParsedModelBlock) (h : (parseBlock cy ws sr er nm).1 = some m) :
    (m.periods.map (·.year)).Nodup ∧
    ∀ p ∈ m.periods, p.period_date = periodDateOf p.year := by
  unfold parseBlock at h
  dsimp only at h
  split at h
  · split at h
    · simp at h
    · next yi hyi =>
      exact parseBlockWithYears_years _ _ _ _ _ _ _ _ _ h
        (findYearHeader_nodup _ _ _ _ _ hyi)
  · next yi hyi =>
    exact parseBlockWithYears_years _ _ _ _ _ _ _ _ _ h
      (findYearHeader_nodup _ _ _ _ _ hyi)

theorem insertByCol_mem (x : YearColumn) : ∀ (l : List YearColumn) (a : YearColumn),
    a ∈ insertByCol x l ↔ a = x ∨ a ∈ l := by
  intro l
  induction l with
  | nil => intro a; simp [insertByCol]
  | cons y t ih =>
    intro a
    unfold insertByCol
    by_cases h : x.col ≤ y.col
    · rw [if_pos h]
      simp
    · rw [if_neg h]
      simp only [List.mem_cons, ih]
      tauto

theorem sortByCol_mem : ∀ (l : List YearColumn) (a : YearColumn),
    a ∈ sortByCol l ↔ a ∈ l := by
  intro l
  induction l with
  | nil => intro a; simp [sortByCol]
  | cons y t ih =>
    intro a
    unfold sortByCol
    rw [insertByCol_mem, ih]
    simp [or_comm]

theorem insertByCol_sorted (x : YearColumn) : ∀ (l : List YearColumn),
    List.Sorted (fun a b => a.col ≤ b.col) l →
    List.Sorted (fun a b => a.col ≤ b.col) (insertByCol x l) := by
  intro l
  induction l with
  | nil => intro _; simp [insertByCol]
  | cons y t ih =>
    intro hs
    rw [List.sorted_cons] at hs
    obtain ⟨hy, ht⟩ := hs
    unfold insertByCol
    by_cases h : x.col ≤ y.col
    · rw [if_pos h]
      rw [List.sorted_cons]
      refine ⟨?_, List.sorted_cons.mpr ⟨hy, ht⟩⟩
      intro b hb
      rcases List.mem_cons.mp hb with rfl | hb2
      · exact h
      · exact le_trans h (hy b hb2)
    · rw [if_neg h]
      rw [List.sorted_cons]
      refine ⟨?_, ih ht⟩
      intro b hb
      rcases (insertByCol_mem x t b).mp hb with rfl | hb2
      · omega
      · exact hy b hb2

theorem sortByCol_sorted : ∀ (l : List YearColumn),
    List.Sorted (fun a b => a.col ≤ b.col) (sortByCol l) := by
  intro l
  induction l with
  | nil => simp [sortByCol]
  | cons y t ih => exact insertByCol_sorted y (sortByCol t) ih

theorem dedupByYear_sublist : ∀ (l : List YearColumn) (seen : List ℚ),
    List.Sublist (dedupByYear seen l) l := by
  intro l
  induction l with
  | nil => intro seen; simp [dedupByYear]
  | cons c t ih =>
    intro seen
    unfold dedupByYear
    by_cases h : seen.contains c.year = true
    · rw [if_pos h]
      exact (ih seen).cons c
    · rw [if_neg h]
      exact (ih (c.year :: seen)).cons₂ c

/-- On a column-sorted list, the dedup keeps, for each year, the entry
with the smallest (leftmost) column. -/
theorem dedupByYear_leftmost : ∀ (l : List YearColumn) (seen : List ℚ),
    List.Sorted (fun a b => a.col ≤ b.col) l →
    ∀ a ∈ dedupByYear seen l, ∀ b ∈ l, b.year = a.year → a.col ≤ b.col := by
  intro l
  induction l with
  | nil => intro seen _ a ha; cases ha
  | cons c t ih =>
    intro seen hs a ha b hb hby
    rw [List.sorted_cons] at hs
    obtain ⟨hc, ht⟩ := hs
    unfold dedupByYear at ha
    by_cases h : seen.contains c.year = true
    · rw [if_pos h] at ha
      have hanot : a.year ∉ seen := (dedupByYear_nodup t seen).2 a ha
      rcases List.mem_cons.mp hb with rfl | hb2
      · exact absurd (hby ▸ List.mem_of_elem_eq_true h) hanot
      · exact ih seen ht a ha b hb2 hby
    · rw [if_neg h] at ha
      rcases List.mem_cons.mp ha with rfl | ha2
      · rcases List.mem_cons.mp hb with rfl | hb2
        · exact le_refl _
        · exact hc b hb2
      · have hanot : a.year ∉ c.year :: seen :=
          (dedupByYear_nodup t (c.year :: seen)).2 a ha2
        rcases List.mem_cons.mp hb with rfl | hb2
        · exact absurd (by simp [hby]) hanot
        · exact ih (c.year :: seen) ht a ha2 b hb2 hby

/-- The year columns `findYearHeader` returns are sorted by column
left-to-right, and each is the leftmost candidate of its year on the
header row. -/
theorem findYearHeader_ordered (ws : Worksheet) (sr er mc : Nat) (yi : YearInfo)
    (h : findYearHeader ws sr er mc = some yi) :
    List.Sorted (fun a b => a.col ≤ b.col) yi.yearCols ∧
    (∀ a ∈ yi.yearCols,
       a ∈ rowYearCandidates ws yi.headerRow (min 30 ws.columnCount) ∧
       ∀ b ∈ rowYearCandidates ws yi.headerRow (min 30 ws.columnCount),
         b.year = a.year → a.col ≤ b.col) := by
  unfold findYearHeader at h
  obtain ⟨r, _, hr⟩ := List.exists_of_findSome?_eq_some h
  dsimp only at hr
  by_cases h1 : mc ≤ (rowYearCandidates ws r (min 30 ws.columnCount)).length
  · rw [if_pos h1] at hr
    by_cases h2 : mc ≤ (dedupByYear []
        (sortByCol (rowYearCandidates ws r (min 30 ws.columnCount)))).length
    · rw [if_pos h2] at hr
      cases hr
      have hsorted := sortByCol_sorted (rowYearCandidates ws r (min 30 ws.columnCount))
      refine ⟨List.Pairwise.sublist (dedupByYear_sublist _ []) hsorted, ?_⟩
      intro a ha
      have hamem : a ∈ sortByCol (rowYearCandidates ws r (min 30 ws.columnCount)) :=
        (dedupByYear_sublist _ []).subset ha
      constructor
      · exact (sortByCol_mem _ a).mp hamem
      · intro b hb hby
        exact dedupByYear_leftmost _ [] hsorted a ha b ((sortByCol_mem _ b).mpr hb) hby
    · rw [if_neg h2] at hr
      cases hr
  · rw [if_neg h1] at hr
    cases hr

theorem parseBlockWithYears_order (cy : Int) (ws : Worksheet) (sr er : Nat)
    (nm : String) (lc : Nat) (yi : YearInfo) (w : List String) (m : ParsedModelBlock)
    (h : (parseBlockWithYears cy ws sr er nm lc yi w).1 = some m) :
    List.Sublist (m.periods.map (·.year)) (yi.yearCols.map (·.year)) := by
  have hproj := blockScan_proj cy ws lc yi sr er
  have hyears : (blockScan cy ws lc yi sr er).periods.map (·.year)
      = yi.yearCols.map (·.year) := by
    have := congrArg (List.map Prod.fst) hproj
    simpa [List.map_map, Function.comp] using this
  unfold parseBlockWithYears at h
  dsimp only at h
  split at h
  · cases h
  · split at h
    · cases h
    · simp only [Option.some.injEq] at h
      subst h
      rw [← hyears]
      exact (List.filter_sublist _).map _

/-- C6 counterexample: a header row whose year columns run `[2026, 2025]`
left-to-right yields periods in that (descending) order — the claim's
"ascending fiscal year" ordering fails. -/
theorem periods_descending_cx :
    ((parseBlock 2025 wsC6a 1 3 "M").1.map (fun m => m.periods.map (·.year))
        = some [2026, 2025]) ∧
    ¬ ((2026 : ℚ) ≤ 2025) := by
  refine ⟨by decide, by decide⟩

/-- C6 (amended): every emitted block comes from a `findYearHeader` result
(strict two-year pass or relaxed one-year pass) whose year columns are
sorted by column position left-to-right and are each the leftmost header
candidate of their year; the block period years are a sublist of those
column-ordered years (so periods follow column order, not ascending year
order), pairwise distinct, and every period date is the December 31 of its
year; for the ascending header `[2025, 2026, 2027]` the dates come out
ascending as the spec example requires. -/
theorem periods_amended (cy : Int) (ws : Worksheet) (sr er : Nat) (nm : String)
    (m : ParsedModelBlock) (hm : (parseBlock cy ws sr er nm).1 = some m) :
    (∃ mc yi, (mc = 2 ∨ mc = 1) ∧
       findYearHeader ws sr (min er (ws.rowCount + 1)) mc = some yi ∧
       List.Sublist (m.periods.map (·.year)) (yi.yearCols.map (·.year)) ∧
       List.Sorted (fun a b => a.col ≤ b.col) yi.yearCols ∧
       (∀ a ∈ yi.yearCols,
          a ∈ rowYearCandidates ws yi.headerRow (min 30 ws.columnCount) ∧
          ∀ b ∈ rowYearCandidates ws yi.headerRow (min 30 ws.columnCount),
            b.year = a.year → a.col ≤ b.col) ∧
       (m.periods.map (·.year)).Nodup ∧
       (∀ p ∈ m.periods, p.period_date = periodDateOf p.year)) ∧
    ((parseBlock 2025 wsC6b 1 3 "A").1.map (fun mm => mm.periods.map (·.period_date))
        = some ["2025-12-31", "2026-12-31", "2027-12-31"]) := by
  refine ⟨?_, by decide⟩
  have hyrs := parseBlock_years cy ws sr er nm m hm
  unfold parseBlock at hm
  dsimp only at hm
  split at hm
  · split at hm
    · simp at hm
    · next yi hyi =>
      exact ⟨1, yi, Or.inr rfl, hyi, parseBlockWithYears_order _ _ _ _ _ _ _ _ _ hm,
        (findYearHeader_ordered _ _ _ _ _ hyi).1,
        (findYearHeader_ordered _ _ _ _ _ hyi).2, hyrs.1, hyrs.2⟩
  · next yi hyi =>
    exact ⟨2, yi, Or.inl rfl, hyi, parseBlockWithYears_order _ _ _ _ _ _ _ _ _ hm,
      (findYearHeader_ordered _ _ _ _ _ hyi).1,
      (findYearHeader_ordered _ _ _ _ _ hyi).2, hyrs.1, hyrs.2⟩

/-- C6 witness: the amended statement at the concrete ascending sheet. -/
theorem periods_amended_witness :
    (∃ mc yi, (mc = 2 ∨ mc = 1) ∧
       findYearHeader wsC6b 1 (min 3 (wsC6b.rowCount + 1)) mc = some yi ∧
       List.Sublist (((parseBlock 2025 wsC6b 1 3 "A").1.getD
           ⟨"", [], [], none⟩).periods.map (·.year)) (yi.yearCols.map (·.year)) ∧
       List.Sorted (fun a b => a.col ≤ b.col) yi.yearCols ∧
       (∀ a ∈ yi.yearCols,
          a ∈ rowYearCandidates wsC6b yi.headerRow (min 30 wsC6b.columnCount) ∧
          ∀ b ∈ rowYearCandidates wsC6b yi.headerRow (min 30 wsC6b.columnCount),
            b.year = a.year → a.col ≤ b.col) ∧
       ((((parseBlock 2025 wsC6b 1 3 "A").1.getD
           ⟨"", [], [], none⟩).periods.map (·.year)).Nodup) ∧
       (∀ p ∈ ((parseBlock 2025 wsC6b 1 3 "A").1.getD ⟨"", [], [], none⟩).periods,
          p.period_date = periodDateOf p.year)) ∧
    ((parseBlock 2025 wsC6b 1 3 "A").1.map (fun mm => mm.periods.map (·.period_date))
        = some ["2025-12-31", "2026-12-31", "2027-12-31"]) :=
  periods_amended 2025 wsC6b 1 3 "A" _ (by decide)

theorem adjustEnds_names : ∀ (l : List RawBlock),
    (adjustEnds l).map (·.name) = l.map (·.name) := by
  intro l
  induction l with
  | nil => rfl
  | cons b t ih =>
    cases t with
    | nil => rfl
    | cons b2 t2 =>
      simp only [adjustEnds, List.map_cons] at *
      exact congrArg _ ih

theorem adjustEnds_head_startRow : ∀ (b : RawBlock) (t : List RawBlock),
    ∃ b2 t2, adjustEnds (b :: t) = b2 :: t2 ∧ b2.startRow = b.startRow := by
  intro b t
  cases t with
  | nil => exact ⟨b, [], rfl, rfl⟩
  | cons c t2 => exact ⟨{ b with endRow := c.startRow }, adjustEnds (c :: t2), rfl, rfl⟩

theorem adjustEnds_chain : ∀ (l : List RawBlock),
    List.Chain' (fun a b => a.endRow = b.startRow) (adjustEnds l) := by
  intro l
  induction l with
  | nil => exact List.chain'_nil
  | cons b t ih =>
    cases t with
    | nil => exact List.chain'_singleton b
    | cons c t2 =>
      obtain ⟨b2, t3, heq, hsr⟩ := adjustEnds_head_startRow c t2
      rw [show adjustEnds (b :: c :: t2)
          = { b with endRow := c.startRow } :: adjustEnds (c :: t2) from rfl, heq]
      rw [heq] at ih
      exact List.chain'_cons.mpr ⟨by simp [hsr], ih⟩

theorem adjustEnds_getLast? : ∀ (l : List RawBlock), (adjustEnds l).getLast? = l.getLast? := by
  intro l
  induction l with
  | nil => rfl
  | cons b t ih =>
    cases t with
    | nil => rfl
    | cons c t2 =>
      rw [show adjustEnds (b :: c :: t2)
          = { b with endRow := c.startRow } :: adjustEnds (c :: t2) from rfl]
      obtain ⟨b2, t3, heq, _⟩ := adjustEnds_head_startRow c t2
      rw [heq]
      rw [heq] at ih
      rw [List.getLast?_cons_cons, ih, List.getLast?_cons_cons]

/-- C7 (amended): a `Name:` marker within the first 10 columns whose row's
leftmost marker cell yields the non-empty trimmed name `X` produces a
block named exactly `X`; consecutive blocks abut (`endRow` = next block's
`startRow`) and the last block ends at `rowCount + 1` (sheet end). -/
theorem name_blocks_amended (ws : Worksheet) (r : Nat) (X : String)
    (hr : r ∈ List.range' 1 ws.rowCount)
    (hm : rowMarkerName ws r = some X) (hX : X ≠ "") :
    X ∈ (findNameBlocks ws).map (·.name) ∧
    List.Chain' (fun a b => a.endRow = b.startRow) (findNameBlocks ws) ∧
    (∀ b, (findNameBlocks ws).getLast? = some b → b.endRow = ws.rowCount + 1) := by
  refine ⟨?_, adjustEnds_chain _, ?_⟩
  · unfold findNameBlocks
    rw [adjustEnds_names]
    refine List.mem_map.mpr ⟨RawBlock.mk X ws.name r (ws.rowCount + 1), ?_, rfl⟩
    refine List.mem_filterMap.mpr ⟨r, hr, ?_⟩
    rw [hm]
    simp [hX]
  · intro b hb
    unfold findNameBlocks at hb
    rw [adjustEnds_getLast?] at hb
    have hmem := List.mem_of_mem_getLast? hb
    obtain ⟨r2, _, hr2⟩ := List.mem_filterMap.mp hmem
    rcases hmr : rowMarkerName ws r2 with _ | nm
    · rw [hmr] at hr2; cases hr2
    · rw [hmr] at hr2
      dsimp only at hr2
      by_cases hnm : nm ≠ ""
      · rw [if_pos hnm] at hr2
        cases hr2
        rfl
      · rw [if_neg hnm] at hr2
        cases hr2

/-- C7 counterexample: `wsC7` holds the cell "Name: Zed" (a marker with
non-empty name) in column 11; segmentation finds no marker blocks and no
section blocks, and the whole parse produces no block at all — in
particular none named "Zed". -/
theorem marker_beyond_col10_cx :
    cellStr (wsC7.getCell 1 11) = "Name: Zed" ∧
    nameMarkerTest (cellStr (wsC7.getCell 1 11)) = true ∧
    stripNameMarker (cellStr (wsC7.getCell 1 11)) = "Zed" ∧
    findNameBlocks wsC7 = [] ∧
    findSectionBlocks wsC7 = [] ∧
    exceptModels (parseExcelBuffer 2025 (Workbook.mk [wsC7]) none) = [] := by
  refine ⟨by decide, by decide, by decide, by decide, by decide, by decide⟩

/-- C7 witness: the marker row of `wsC7w` (name with surrounding
whitespace) produces the block "Alpha Plan". -/
theorem name_blocks_amended_witness :
    "Alpha Plan" ∈ (findNameBlocks wsC7w).map (·.name) ∧
    List.Chain' (fun a b => a.endRow = b.startRow) (findNameBlocks wsC7w) ∧
    (∀ b, (findNameBlocks wsC7w).getLast? = some b → b.endRow = wsC7w.rowCount + 1) :=
  name_blocks_amended wsC7w 1 "Alpha Plan" (by decide) (by decide) (by decide)

/-- A row never removes entries from the unmapped list. -/
theorem stepRow_unmapped_mono (ws : Worksheet) (lc : Nat) (yi : YearInfo)
    (st : ScanState) (r : Nat) (x : String) (h : x ∈ st.unmapped) :
    x ∈ (stepRow ws lc yi st r).unmapped := by
  unfold stepRow
  split
  · exact h
  · dsimp only
    split
    · exact h
    · split
      · exact h
      · split
        next xx ctx2 heq =>
          split
          · exact List.mem_append_left _ h
          · exact h
        next xx fl ctx2 heq => exact h

theorem foldl_unmapped_mono (ws : Worksheet) (lc : Nat) (yi : YearInfo) :
    ∀ (l : List Nat) (st : ScanState) (x : String),
    x ∈ st.unmapped → x ∈ (l.foldl (stepRow ws lc yi) st).unmapped := by
  intro l
  induction l with
  | nil => intro st x h; exact h
  | cons a t ih => intro st x h; exact ih _ x (stepRow_unmapped_mono ws lc yi st a x h)

/-- C8 (amended): a data row (not the header row) whose effective label is
non-empty, not one of the skipped header labels, maps to no field in the
context reached at that row, has at least one numeric value in a year
column, **and is longer than one character**, is recorded in the scan's
unmapped list; when the block is emitted, the label appears in the
block's `unmappedRows` and the corresponding warning is pushed.
(Single-character labels and skip-listed labels are silently dropped —
see the counterexample.) -/
theorem unmapped_recorded_amended (cy : Int) (ws : Worksheet) (sr er : Nat)
    (nm : String) (lc : Nat) (yi : YearInfo) (w : List String)
    (pre post : List Nat) (r : Nat)
    (hsplit : List.range' sr (er - sr) = pre ++ r :: post)
    (hnh : r ≠ yi.headerRow)
    (hlab : resolvedLabel ws lc r ≠ "")
    (hskip : isSkippedLabel (jsToLowerStr (resolvedLabel ws lc r)) = false)
    (hmap : (mapLabelToField (resolvedLabel ws lc r)
        ((pre.foldl (stepRow ws lc yi) (initScan cy yi)).ctx)).1 = none)
    (hdata : (yi.yearCols.any (fun yc => (cellNum (ws.getCell r yc.col)).isSome)) = true)
    (hlen : 1 < (resolvedLabel ws lc r).length) :
    resolvedLabel ws lc r ∈ (blockScan cy ws lc yi sr er).unmapped ∧
    (∀ m, (parseBlockWithYears cy ws sr er nm lc yi w).1 = some m →
        resolvedLabel ws lc r ∈ m.unmappedRows ∧
        unmappedWarning nm m.unmappedRows ∈ (parseBlockWithYears cy ws sr er nm lc yi w).2) := by
  have hmem : resolvedLabel ws lc r ∈ (blockScan cy ws lc yi sr er).unmapped := by
    unfold blockScan
    rw [hsplit, List.foldl_append, List.foldl_cons]
    apply foldl_unmapped_mono
    set st1 := pre.foldl (stepRow ws lc yi) (initScan cy yi) with hst1
    unfold stepRow
    rw [if_neg hnh]
    rw [if_neg hlab, if_neg (by simp [hskip])]
    rcases hml : mapLabelToField (resolvedLabel ws lc r) st1.ctx with ⟨of, ctx2⟩
    have hof : of = none := by
      have := hmap
      rw [hml] at this
      exact this
    subst hof
    dsimp only
    rw [if_pos (by simp [hdata, hlen])]
    exact List.mem_append_right _ (List.mem_singleton.mpr rfl)
  refine ⟨hmem, ?_⟩
  intro m hm
  have hne : (blockScan cy ws lc yi sr er).unmapped ≠ [] := by
    intro hemp
    rw [hemp] at hmem
    cases hmem
  unfold parseBlockWithYears at hm ⊢
  dsimp only at hm ⊢
  split at hm
  next hc1 => cases hm
  next hc1 =>
    split at hm
    next hc2 => cases hm
    next hc2 =>
      simp only [Option.some.injEq] at hm
      subst hm
      refine ⟨hmem, ?_⟩
      rw [if_neg hc1, if_neg hc2, if_pos hne]
      dsimp only
      exact List.mem_append_right _ (List.mem_singleton.mpr rfl)

/-- C8 counterexample: on `wsC8`, row 3 carries the label "X" (mapping to
no field) and numeric data in both year columns, yet the emitted block's
`unmappedRows` is empty — the row was silently dropped because
`rawLabel.length > 1` fails for single-character labels. -/
theorem single_char_unmapped_dropped_cx :
    (mapLabelToField "X" ⟨none, none⟩).1 = none ∧
    (mapLabelToField "X" ⟨some .revenue, some .revenue_total⟩).1 = none ∧
    (cellNum (wsC8.getCell 3 2)).isSome = true ∧
    ((parseBlock 2025 wsC8 1 4 "M").1.map (·.unmappedRows) = some []) := by
  refine ⟨by decide, by decide, by decide, by decide⟩

/-- C8 witness: the two-character label "XQ" on `wsC8w` is recorded. -/
theorem unmapped_recorded_amended_witness :
    resolvedLabel wsC8w 1 3 ∈ (blockScan 2025 wsC8w 1 yiC8 1 4).unmapped ∧
    (∀ m, (parseBlockWithYears 2025 wsC8w 1 4 "M" 1 yiC8 []).1 = some m →
        resolvedLabel wsC8w 1 3 ∈ m.unmappedRows ∧
        unmappedWarning "M" m.unmappedRows
          ∈ (parseBlockWithYears 2025 wsC8w 1 4 "M" 1 yiC8 []).2) :=
  unmapped_recorded_amended 2025 wsC8w 1 4 "M" 1 yiC8 [] [1, 2] [] 3
    (by decide) (by decide) (by decide) (by decide) (by decide) (by decide) (by decide)

/-- Any of the six key fields being set makes the period non-empty. -/
theorem keySix_nonEmpty (p : PeriodYear) (h : keySixTest p = true) :
    isNonEmptyPeriod p = true := by
  simp only [keySixTest, Bool.or_eq_true] at h
  simp only [isNonEmptyPeriod, PeriodYear.fieldList, List.any_cons, List.any_nil,
    Bool.or_eq_true]
  tauto

theorem parseBlockWithYears_keysix (cy : Int) (ws : Worksheet) (sr er : Nat)
    (nm : String) (lc : Nat) (yi : YearInfo) (w : List String) (m : ParsedModelBlock)
    (h : (parseBlockWithYears cy ws sr er nm lc yi w).1 = some m) :
    ∃ p ∈ m.periods, keySixTest p = true := by
  unfold parseBlockWithYears at h
  dsimp only at h
  split at h
  next hc1 => cases h
  next hc1 =>
    split at h
    next hc2 => cases h
    next hc2 =>
      simp only [Option.some.injEq] at h
      subst h
      have hany : (blockScan cy ws lc yi sr er).periods.any keySixTest = true := by
        by_cases hb : (blockScan cy ws lc yi sr er).periods.any keySixTest = true
        · exact hb
        · exact absurd (by simp [Bool.not_eq_true] at hb ⊢; exact hb) hc1
      obtain ⟨p, hp, hkey⟩ := List.any_eq_true.mp hany
      exact ⟨p, List.mem_filter.mpr ⟨hp, keySix_nonEmpty p hkey⟩, hkey⟩

theorem parseBlock_keysix (cy : Int) (ws : Worksheet) (sr er : Nat) (nm : String)
    (m : ParsedModelBlock) (h : (parseBlock cy ws sr er nm).1 = some m) :
    ∃ p ∈ m.periods, keySixTest p = true := by
  unfold parseBlock at h
  dsimp only at h
  split at h
  · split at h
    · cases h
    · exact parseBlockWithYears_keysix _ _ _ _ _ _ _ _ _ h
  · exact parseBlockWithYears_keysix _ _ _ _ _ _ _ _ _ h

theorem parseRawBlocks_keysix (cy : Int) (ws : Worksheet) :
    ∀ (blocks : List RawBlock) (acc : List ParsedModelBlock × List String),
    (∀ m ∈ acc.1, ∃ p ∈ m.periods, keySixTest p = true) →
    ∀ m ∈ (blocks.foldl (parseRawStep cy ws) acc).1, ∃ p ∈ m.periods, keySixTest p = true := by
  intro blocks
  induction blocks with
  | nil => intro acc hacc; exact hacc
  | cons b t ih =>
    intro acc hacc
    refine ih _ ?_
    intro m hm
    unfold parseRawStep at hm
    dsimp only at hm
    rcases List.mem_append.mp hm with hm1 | hm2
    · exact hacc m hm1
    · rcases hpb : (parseBlock cy ws b.startRow b.endRow b.name).1 with _ | mm
      · rw [hpb] at hm2; cases hm2
      · rw [hpb] at hm2
        rcases List.mem_singleton.mp hm2 with rfl
        exact parseBlock_keysix _ _ _ _ _ _ hpb

theorem processSheet_keysix (cy : Int) (multi : Bool) (f : Option String)
    (st : OrchState) (ws : Worksheet)
    (hst : ∀ m ∈ st.allModels, ∃ p ∈ m.periods, keySixTest p = true) :
    ∀ m ∈ (processSheet cy multi f st ws).allModels,
      ∃ p ∈ m.periods, keySixTest p = true := by
  unfold processSheet
  split
  · exact hst
  · split
    next b0 rest heq =>
      intro m hm
      dsimp only at hm
      rcases List.mem_append.mp hm with hm1 | hm2
      · exact hst m hm1
      · exact parseRawBlocks_keysix cy ws _ ([], []) (by intro m hm; cases hm) m hm2
    next heq =>
      by_cases hsec : 1 < (findSectionBlocks ws).length
      · rw [if_pos hsec]
        intro m hm
        dsimp only at hm
        rcases List.mem_append.mp hm with hm1 | hm2
        · exact hst m hm1
        · exact parseRawBlocks_keysix cy ws _ ([], []) (by intro m hm; cases hm) m hm2
      · rw [if_neg hsec]
        intro m hm
        dsimp only at hm
        rcases List.mem_append.mp hm with hm1 | hm2
        · exact hst m hm1
        · rcases hpb : (parseBlock cy ws 1 (ws.rowCount + 1)
              (wholeSheetName multi f ws)).1 with _ | mm
          · rw [hpb] at hm2; cases hm2
          · rw [hpb] at hm2
            rcases List.mem_singleton.mp hm2 with rfl
            exact parseBlock_keysix _ _ _ _ _ _ hpb

/-- C10: every Model Block in a successful Parse Result has at least one
period with one of the six key fields (revenue_total, ebitda_total,
enterprise_value, equity_value, nibd, share_count) non-null; and a block
whose scan produced no key-field value at all is discarded (`none`) with
the descriptive warning, even if other (non-key) fields carry data. -/
theorem key_six_invariant :
    (∀ (cy : Int) (wb : Workbook) (f : Option String) (m : ParsedModelBlock),
        m ∈ exceptModels (parseExcelBuffer cy wb f) →
        ∃ p ∈ m.periods, keySixTest p = true) ∧
    (∀ (cy : Int) (ws : Worksheet) (sr er : Nat) (nm : String) (lc : Nat)
        (yi : YearInfo) (w : List String),
        (blockScan cy ws lc yi sr er).periods.any keySixTest = false →
        (parseBlockWithYears cy ws sr er nm lc yi w).1 = none ∧
        noDataWarning nm ws.name ∈ (parseBlockWithYears cy ws sr er nm lc yi w).2) := by
  constructor
  · intro cy wb f m hm
    unfold exceptModels at hm
    split at hm
    · cases hm
    next res heq =>
      unfold parseExcelBuffer at heq
      split at heq
      · cases heq
      · dsimp only at heq
        split at heq
        · cases heq
        · simp only [Except.ok.injEq] at heq
          subst heq
          have : ∀ mm ∈ (processAllSheets cy wb f).allModels,
              ∃ p ∈ mm.periods, keySixTest p = true := by
            unfold processAllSheets
            refine foldl_preserves
              (fun st => ∀ mm ∈ st.allModels, ∃ p ∈ mm.periods, keySixTest p = true)
              (processSheet cy (1 < (wb.worksheets.map (·.name)).length) f) ?_ _ _ ?_
            · intro s a hs
              exact processSheet_keysix _ _ _ _ _ hs
            · intro mm hmm; cases hmm
          exact this m hm
  · intro cy ws sr er nm lc yi w hfalse
    unfold parseBlockWithYears
    dsimp only
    rw [if_pos (by simp [hfalse])]
    exact ⟨rfl, List.mem_append_right _ (List.mem_singleton.mpr rfl)⟩

/-- C10 witness: the invariant at a concrete parsed workbook, and the
discard of a capex-only block. -/
theorem key_six_invariant_witness :
    (∃ p ∈ ((exceptModels (parseExcelBuffer 2025 wb10 none)).headD
        ⟨"", [], [], none⟩).periods, keySixTest p = true) ∧
    ((parseBlockWithYears 2025 wsCap 1 3 "B" 1 yiCap []).1 = none ∧
     noDataWarning "B" wsCap.name ∈ (parseBlockWithYears 2025 wsCap 1 3 "B" 1 yiCap []).2) :=
  ⟨key_six_invariant.1 2025 wb10 none _ (by decide),
   key_six_invariant.2 2025 wsCap 1 3 "B" 1 yiCap [] (by decide)⟩

/-! ### Clock-independence: periods with the `period_type` classification
erased.  `period_type` is the only place `createEmptyPeriod`'s wall-clock
year is used, so the parse is deterministic up to that field. -/

/-- A period with `period_type` removed. -/
structure PeriodCore where
  year : ℚ
  period_date : String
  period_label : String
  revenue_total : Option ℚ
  revenue_managed_services : Option ℚ
  revenue_professional_services : Option ℚ
  revenue_other : Option ℚ
  revenue_organic : Option ℚ
  revenue_ma : Option ℚ
  revenue_growth : Option ℚ
  organic_growth : Option ℚ
  acquired_revenue : Option ℚ
  ebitda_total : Option ℚ
  ebitda_margin : Option ℚ
  ebitda_managed_services : Option ℚ
  ebitda_professional_services : Option ℚ
  ebitda_central_costs : Option ℚ
  ebitda_organic : Option ℚ
  ebitda_ma : Option ℚ
  margin_managed_services : Option ℚ
  margin_professional_services : Option ℚ
  margin_central_costs : Option ℚ
  capex : Option ℚ
  capex_pct_revenue : Option ℚ
  change_nwc : Option ℚ
  other_cash_flow_items : Option ℚ
  operating_fcf : Option ℚ
  minority_interest : Option ℚ
  operating_fcf_excl_minorities : Option ℚ
  cash_conversion : Option ℚ
  share_count : Option ℚ
  nibd : Option ℚ
  option_debt : Option ℚ
  adjustments : Option ℚ
  enterprise_value : Option ℚ
  equity_value : Option ℚ
  preferred_equity : Option ℚ
  per_share_pre : Option ℚ
  mip_amount : Option ℚ
  tso_amount : Option ℚ
  warrants_amount : Option ℚ
  eqv_post_dilution : Option ℚ
  per_share_post : Option ℚ
deriving DecidableEq, Repr

/-- Drop the `period_type` field. -/
def stripPeriod (p : PeriodYear) : PeriodCore :=
  ⟨p.year, p.period_date, p.period_label, p.revenue_total, p.revenue_managed_services, p.revenue_professional_services, p.revenue_other, p.revenue_organic, p.revenue_ma, p.revenue_growth, p.organic_growth, p.acquired_revenue, p.ebitda_total, p.ebitda_margin, p.ebitda_managed_services, p.ebitda_professional_services, p.ebitda_central_costs, p.ebitda_organic, p.ebitda_ma, p.margin_managed_services, p.margin_professional_services, p.margin_central_costs, p.capex, p.capex_pct_revenue, p.change_nwc, p.other_cash_flow_items, p.operating_fcf, p.minority_interest, p.operating_fcf_excl_minorities, p.cash_conversion, p.share_count, p.nibd, p.option_debt, p.adjustments, p.enterprise_value, p.equity_value, p.preferred_equity, p.per_share_pre, p.mip_amount, p.tso_amount, p.warrants_amount, p.eqv_post_dilution, p.per_share_post⟩

/-- What `createEmptyPeriod` produces, modulo `period_type`. -/
def createEmptyCore (y : ℚ) : PeriodCore :=
  ⟨y, periodDateOf y, s!"{y}", none, none, none, none, none, none, none, none, none, none, none, none, none, none, none, none, none, none, none, none, none, none, none, none, none, none, none, none, none, none, none, none, none, none, none, none, none, none, none, none⟩

/-- `setField` on stripped periods. -/
def setFieldCore (f : FieldKey) (v : ℚ) (c : PeriodCore) : PeriodCore :=
  match f with
  | .revenue_total => { c with revenue_total := some v }
  | .revenue_managed_services => { c with revenue_managed_services := some v }
  | .revenue_professional_services => { c with revenue_professional_services := some v }
  | .revenue_other => { c with revenue_other := some v }
  | .revenue_organic => { c with revenue_organic := some v }
  | .revenue_ma => { c with revenue_ma := some v }
  | .revenue_growth => { c with revenue_growth := some v }
  | .organic_growth => { c with organic_growth := some v }
  | .acquired_revenue => { c with acquired_revenue := some v }
  | .ebitda_total => { c with ebitda_total := some v }
  | .ebitda_margin => { c with ebitda_margin := some v }
  | .ebitda_managed_services => { c with ebitda_managed_services := some v }
  | .ebitda_professional_services => { c with ebitda_professional_services := some v }
  | .ebitda_central_costs => { c with ebitda_central_costs := some v }
  | .ebitda_organic => { c with ebitda_organic := some v }
  | .ebitda_ma => { c with ebitda_ma := some v }
  | .margin_managed_services => { c with margin_managed_services := some v }
  | .margin_professional_services => { c with margin_professional_services := some v }
  | .margin_central_costs => { c with margin_central_costs := some v }
  | .capex => { c with capex := some v }
  | .capex_pct_revenue => { c with capex_pct_revenue := some v }
  | .change_nwc => { c with change_nwc := some v }
  | .other_cash_flow_items => { c with other_cash_flow_items := some v }
  | .operating_fcf => { c with operating_fcf := some v }
  | .minority_interest => { c with minority_interest := some v }
  | .operating_fcf_excl_minorities => { c with operating_fcf_excl_minorities := some v }
  | .cash_conversion => { c with cash_conversion := some v }
  | .share_count => { c with share_count := some v }
  | .nibd => { c with nibd := some v }
  | .option_debt => { c with option_debt := some v }
  | .adjustments => { c with adjustments := some v }
  | .enterprise_value => { c with enterprise_value := some v }
  | .equity_value => { c with equity_value := some v }
  | .preferred_equity => { c with preferred_equity := some v }
  | .per_share_pre => { c with per_share_pre := some v }
  | .mip_amount => { c with mip_amount := some v }
  | .tso_amount => { c with tso_amount := some v }
  | .warrants_amount => { c with warrants_amount := some v }
  | .eqv_post_dilution => { c with eqv_post_dilution := some v }
  | .per_share_post => { c with per_share_post := some v }

theorem strip_createEmpty (cy : Int) (y : ℚ) :
    stripPeriod (createEmptyPeriod cy y) = createEmptyCore y := rfl

theorem strip_setField (f : FieldKey) (v : ℚ) (p : PeriodYear) :
    stripPeriod (setField f v p) = setFieldCore f v (stripPeriod p) := by
  cases f <;> rfl

/-- `keySixTest` on stripped periods. -/
def keySixCore (c : PeriodCore) : Bool :=
  c.revenue_total.isSome || c.ebitda_total.isSome || c.enterprise_value.isSome ||
  c.equity_value.isSome || c.nibd.isSome || c.share_count.isSome

/-- `isNonEmptyPeriod` on stripped periods. -/
def isNonEmptyCore (c : PeriodCore) : Bool :=
  [c.revenue_total, c.revenue_managed_services, c.revenue_professional_services, c.revenue_other, c.revenue_organic, c.revenue_ma, c.revenue_growth, c.organic_growth, c.acquired_revenue, c.ebitda_total, c.ebitda_margin, c.ebitda_managed_services, c.ebitda_professional_services, c.ebitda_central_costs, c.ebitda_organic, c.ebitda_ma, c.margin_managed_services, c.margin_professional_services, c.margin_central_costs, c.capex, c.capex_pct_revenue, c.change_nwc, c.other_cash_flow_items, c.operating_fcf, c.minority_interest, c.operating_fcf_excl_minorities, c.cash_conversion, c.share_count, c.nibd, c.option_debt, c.adjustments, c.enterprise_value, c.equity_value, c.preferred_equity, c.per_share_pre, c.mip_amount, c.tso_amount, c.warrants_amount, c.eqv_post_dilution, c.per_share_post].any (·.isSome)

theorem keySix_strip (p : PeriodYear) : keySixTest p = keySixCore (stripPeriod p) := rfl

theorem isNonEmpty_strip (p : PeriodYear) :
    isNonEmptyPeriod p = isNonEmptyCore (stripPeriod p) := rfl

structure ScanCore where
  periods : List PeriodCore
  unmapped : List String
  ctx : ParseContext

def stripScan (st : ScanState) : ScanCore :=
  ⟨st.periods.map stripPeriod, st.unmapped, st.ctx⟩

def applyRowValuesCore (ws : Worksheet) (r : Nat) (field : FieldKey)
    (yearCols : List YearColumn) (periods : List PeriodCore) : List PeriodCore :=
  List.zipWith (fun c yc =>
    match cellNum (ws.getCell r yc.col) with
    | some v => setFieldCore field v c
    | none => c) periods yearCols

def stepRowCore (ws : Worksheet) (labelCol : Nat) (yi : YearInfo)
    (st : ScanCore) (r : Nat) : ScanCore :=
  if r = yi.headerRow then st
  else
    let rawLabel := resolvedLabel ws labelCol r
    if rawLabel = "" then st
    else
      let lower := jsToLowerStr rawLabel
      if isSkippedLabel lower then st
      else
        match mapLabelToField rawLabel st.ctx with
        | (none, ctx2) =>
          let hasData := yi.yearCols.any (fun yc => (cellNum (ws.getCell r yc.col)).isSome)
          if hasData && 1 < rawLabel.length then
            { st with unmapped := st.unmapped ++ [rawLabel], ctx := ctx2 }
          else { st with ctx := ctx2 }
        | (some field, ctx2) =>
          { st with periods := applyRowValuesCore ws r field yi.yearCols st.periods,
                    ctx := ctx2 }

theorem strip_applyRowValues (ws : Worksheet) (r : Nat) (field : FieldKey) :
    ∀ (ys : List YearColumn) (ps : List PeriodYear),
    (applyRowValues ws r field ys ps).map stripPeriod
      = applyRowValuesCore ws r field ys (ps.map stripPeriod) := by
  intro ys
  induction ys with
  | nil => intro ps; cases ps <;> rfl
  | cons y yt ih =>
    intro ps
    cases ps with
    | nil => rfl
    | cons p pt =>
      simp only [applyRowValues, applyRowValuesCore, List.zipWith_cons_cons,
        List.map_cons] at *
      congr 1
      · cases cellNum (ws.getCell r y.col) with
        | none => rfl
        | some v => exact strip_setField field v p
      · exact ih pt

theorem strip_stepRow (ws : Worksheet) (lc : Nat) (yi : YearInfo)
    (st : ScanState) (r : Nat) :
    stripScan (stepRow ws lc yi st r) = stepRowCore ws lc yi (stripScan st) r := by
  unfold stepRow stepRowCore
  by_cases h1 : r = yi.headerRow
  · rw [if_pos h1, if_pos h1]
  · rw [if_neg h1, if_neg h1]
    by_cases h2 : resolvedLabel ws lc r = ""
    · rw [if_pos h2, if_pos h2]
    · rw [if_neg h2, if_neg h2]
      by_cases h3 : isSkippedLabel (jsToLowerStr (resolvedLabel ws lc r)) = true
      · rw [if_pos h3, if_pos h3]
      · rw [if_neg h3, if_neg h3]
        have hctx : (stripScan st).ctx = st.ctx := rfl
        rw [hctx]
        rcases hml : mapLabelToField (resolvedLabel ws lc r) st.ctx with ⟨of, ctx2⟩
        cases of with
        | none =>
          dsimp only
          by_cases h4 : ((yi.yearCols.any fun yc => (cellNum (ws.getCell r yc.col)).isSome)
              && decide (1 < (resolvedLabel ws lc r).length)) = true
          · rw [if_pos h4, if_pos h4]
            rfl
          · rw [if_neg h4, if_neg h4]
            rfl
        | some field =>
          dsimp only
          show ScanCore.mk _ _ _ = ScanCore.mk _ _ _
          rw [strip_applyRowValues]
          rfl

def initScanCore (yi : YearInfo) : ScanCore :=
  ⟨yi.yearCols.map (fun yc => createEmptyCore yc.year), [], ⟨none, none⟩⟩

def blockScanCore (ws : Worksheet) (labelCol : Nat) (yi : YearInfo)
    (startRow endRow : Nat) : ScanCore :=
  (List.range' startRow (endRow - startRow)).foldl (stepRowCore ws labelCol yi)
    (initScanCore yi)

theorem strip_initScan (cy : Int) (yi : YearInfo) :
    stripScan (initScan cy yi) = initScanCore yi := by
  simp only [stripScan, initScan, initScanCore, List.map_map]
  rfl

theorem strip_foldl (ws : Worksheet) (lc : Nat) (yi : YearInfo) :
    ∀ (l : List Nat) (st : ScanState),
    stripScan (l.foldl (stepRow ws lc yi) st) = l.foldl (stepRowCore ws lc yi) (stripScan st) := by
  intro l
  induction l with
  | nil => intro st; rfl
  | cons a t ih =>
    intro st
    rw [List.foldl_cons, List.foldl_cons, ih, strip_stepRow]

theorem strip_blockScan (cy : Int) (ws : Worksheet) (lc : Nat) (yi : YearInfo)
    (sr er : Nat) :
    stripScan (blockScan cy ws lc yi sr er) = blockScanCore ws lc yi sr er := by
  unfold blockScan blockScanCore
  rw [strip_foldl, strip_initScan]

/-- A model with its periods stripped of `period_type`. -/
structure ModelCore where
  name : String
  periods : List PeriodCore
  unmappedRows : List String
  source : Option String
deriving DecidableEq, Repr

def stripModel (m : ParsedModelBlock) : ModelCore :=
  ⟨m.name, m.periods.map stripPeriod, m.unmappedRows, m.source⟩

/-- A parse outcome with every period's `period_type` erased. -/
def stripResult (r : Except String ExcelParseResult) :
    Except String (List ModelCore × InputParameters × List String) :=
  match r with
  | .error e => .error e
  | .ok res => .ok (res.models.map stripModel, res.inputParameters, res.warnings)

theorem parseBlockWithYears_cy (cy1 cy2 : Int) (ws : Worksheet) (sr er : Nat)
    (nm : String) (lc : Nat) (yi : YearInfo) (w : List String) :
    (parseBlockWithYears cy1 ws sr er nm lc yi w).1.map stripModel
      = (parseBlockWithYears cy2 ws sr er nm lc yi w).1.map stripModel ∧
    (parseBlockWithYears cy1 ws sr er nm lc yi w).2
      = (parseBlockWithYears cy2 ws sr er nm lc yi w).2 := by
  have hs : stripScan (blockScan cy1 ws lc yi sr er)
      = stripScan (blockScan cy2 ws lc yi sr er) := by
    rw [strip_blockScan, strip_blockScan]
  have hper : (blockScan cy1 ws lc yi sr er).periods.map stripPeriod
      = (blockScan cy2 ws lc yi sr er).periods.map stripPeriod :=
    congrArg ScanCore.periods hs
  have hunm : (blockScan cy1 ws lc yi sr er).unmapped
      = (blockScan cy2 ws lc yi sr er).unmapped :=
    congrArg ScanCore.unmapped hs
  have eany : ∀ (l : List PeriodYear),
      l.any keySixTest = (l.map stripPeriod).any keySixCore := by
    intro l
    induction l with
    | nil => rfl
    | cons p t ih =>
      simp only [List.any_cons, List.map_cons]
      rw [ih, keySix_strip]
  have hany : (blockScan cy1 ws lc yi sr er).periods.any keySixTest
      = (blockScan cy2 ws lc yi sr er).periods.any keySixTest := by
    rw [eany, eany, hper]
  have efil : ∀ (l : List PeriodYear), (l.filter isNonEmptyPeriod).map stripPeriod
      = (l.map stripPeriod).filter isNonEmptyCore := by
    intro l
    induction l with
    | nil => rfl
    | cons p t ih =>
      simp only [List.filter_cons, List.map_cons]
      rw [← isNonEmpty_strip]
      by_cases hp : isNonEmptyPeriod p = true
      · rw [if_pos hp, if_pos hp, List.map_cons, ih]
      · rw [if_neg hp, if_neg hp]
        exact ih
  have hfil : ((blockScan cy1 ws lc yi sr er).periods.filter isNonEmptyPeriod).map stripPeriod
      = ((blockScan cy2 ws lc yi sr er).periods.filter isNonEmptyPeriod).map stripPeriod := by
    rw [efil, efil, hper]
  have hnil : ((blockScan cy1 ws lc yi sr er).periods.filter isNonEmptyPeriod = [])
      ↔ ((blockScan cy2 ws lc yi sr er).periods.filter isNonEmptyPeriod = []) := by
    rw [← List.map_eq_nil_iff (f := stripPeriod), hfil, List.map_eq_nil_iff]
  unfold parseBlockWithYears
  dsimp only
  by_cases hA : (!(blockScan cy1 ws lc yi sr er).periods.any keySixTest) = true
  · have hA2 : (!(blockScan cy2 ws lc yi sr er).periods.any keySixTest) = true := by
      rw [← hany]; exact hA
    rw [if_pos hA, if_pos hA2]
    exact ⟨rfl, rfl⟩
  · have hA2 : ¬(!(blockScan cy2 ws lc yi sr er).periods.any keySixTest) = true := by
      rw [← hany]; exact hA
    rw [if_neg hA, if_neg hA2]
    by_cases hB : (blockScan cy1 ws lc yi sr er).periods.filter isNonEmptyPeriod = []
    · rw [if_pos hB, if_pos (hnil.mp hB)]
      exact ⟨rfl, rfl⟩
    · rw [if_neg hB, if_neg (fun hh => hB (hnil.mpr hh))]
      constructor
      · show some (stripModel _) = some (stripModel _)
        unfold stripModel
        dsimp only
        rw [hfil, hunm]
      · dsimp only
        rw [hunm]

theorem parseBlock_cy (cy1 cy2 : Int) (ws : Worksheet) (sr er : Nat) (nm : String) :
    (parseBlock cy1 ws sr er nm).1.map stripModel
      = (parseBlock cy2 ws sr er nm).1.map stripModel ∧
    (parseBlock cy1 ws sr er nm).2 = (parseBlock cy2 ws sr er nm).2 := by
  unfold parseBlock
  dsimp only
  split
  · split
    · exact ⟨rfl, rfl⟩
    · exact parseBlockWithYears_cy cy1 cy2 ws sr _ nm _ _ []
  · exact parseBlockWithYears_cy cy1 cy2 ws sr _ nm _ _ []

theorem parseRawBlocks_cy (cy1 cy2 : Int) (ws : Worksheet) :
    ∀ (blocks : List RawBlock) (acc1 acc2 : List ParsedModelBlock × List String),
    acc1.1.map stripModel = acc2.1.map stripModel → acc1.2 = acc2.2 →
    (blocks.foldl (parseRawStep cy1 ws) acc1).1.map stripModel
      = (blocks.foldl (parseRawStep cy2 ws) acc2).1.map stripModel ∧
    (blocks.foldl (parseRawStep cy1 ws) acc1).2
      = (blocks.foldl (parseRawStep cy2 ws) acc2).2 := by
  intro blocks
  induction blocks with
  | nil => intro acc1 acc2 h1 h2; exact ⟨h1, h2⟩
  | cons b t ih =>
    intro acc1 acc2 h1 h2
    rw [List.foldl_cons, List.foldl_cons]
    refine ih _ _ ?_ ?_
    · unfold parseRawStep
      dsimp only
      rw [List.map_append, List.map_append, h1]
      obtain ⟨hm, _⟩ := parseBlock_cy cy1 cy2 ws b.startRow b.endRow b.name
      congr 1
      rcases hp1 : (parseBlock cy1 ws b.startRow b.endRow b.name).1 with _ | m1 <;>
        rcases hp2 : (parseBlock cy2 ws b.startRow b.endRow b.name).1 with _ | m2
      · rfl
      · rw [hp1, hp2] at hm
        cases hm
      · rw [hp1, hp2] at hm
        cases hm
      · rw [hp1, hp2] at hm
        simp only [Option.map_some', Option.some.injEq] at hm
        simp [hm]
    · unfold parseRawStep
      dsimp only
      rw [h2, (parseBlock_cy cy1 cy2 ws b.startRow b.endRow b.name).2]

theorem processSheet_cy (cy1 cy2 : Int) (multi : Bool) (f : Option String)
    (st1 st2 : OrchState) (ws : Worksheet)
    (h1 : st1.allModels.map stripModel = st2.allModels.map stripModel)
    (h2 : st1.warnings = st2.warnings)
    (h3 : st1.inputParameters = st2.inputParameters) :
    (processSheet cy1 multi f st1 ws).allModels.map stripModel
      = (processSheet cy2 multi f st2 ws).allModels.map stripModel ∧
    (processSheet cy1 multi f st1 ws).warnings
      = (processSheet cy2 multi f st2 ws).warnings ∧
    (processSheet cy1 multi f st1 ws).inputParameters
      = (processSheet cy2 multi f st2 ws).inputParameters := by
  unfold processSheet
  by_cases hempty : (ws.rowCount = 0 || ws.columnCount = 0) = true
  · rw [if_pos hempty, if_pos hempty]
    exact ⟨h1, by rw [h2], h3⟩
  · rw [if_neg hempty, if_neg hempty]
    rcases hnb : findNameBlocks ws with _ | ⟨b0, rest⟩
    · dsimp only
      by_cases hsec : 1 < (findSectionBlocks ws).length
      · rw [if_pos hsec, if_pos hsec]
        obtain ⟨hm, hw⟩ := parseRawBlocks_cy cy1 cy2 ws (findSectionBlocks ws)
          ([], []) ([], []) rfl rfl
        refine ⟨?_, ?_, h3⟩
        · dsimp only
          rw [List.map_append, List.map_append, h1]
          exact congrArg _ hm
        · dsimp only
          rw [h2]
          exact congrArg _ hw
      · rw [if_neg hsec, if_neg hsec]
        obtain ⟨hm, hw⟩ := parseBlock_cy cy1 cy2 ws 1 (ws.rowCount + 1)
          (wholeSheetName multi f ws)
        refine ⟨?_, ?_, ?_⟩
        · dsimp only
          rw [List.map_append, List.map_append, h1]
          congr 1
          rcases hp1 : (parseBlock cy1 ws 1 (ws.rowCount + 1) (wholeSheetName multi f ws)).1
              with _ | m1 <;>
            rcases hp2 : (parseBlock cy2 ws 1 (ws.rowCount + 1) (wholeSheetName multi f ws)).1
              with _ | m2
          · rfl
          · rw [hp1, hp2] at hm
            cases hm
          · rw [hp1, hp2] at hm
            cases hm
          · rw [hp1, hp2] at hm
            simp only [Option.map_some', Option.some.injEq] at hm
            simp [hm]
        · dsimp only
          rw [h2, hw]
        · dsimp only
          rw [h3]
    · dsimp only
      obtain ⟨hm, hw⟩ := parseRawBlocks_cy cy1 cy2 ws (b0 :: rest) ([], []) ([], []) rfl rfl
      refine ⟨?_, ?_, ?_⟩
      · dsimp only
        rw [List.map_append, List.map_append, h1]
        exact congrArg _ hm
      · dsimp only
        rw [h2]
        exact congrArg _ hw
      · dsimp only
        rw [h3]

theorem processAllSheets_cy (cy1 cy2 : Int) (wb : Workbook) (f : Option String) :
    (processAllSheets cy1 wb f).allModels.map stripModel
      = (processAllSheets cy2 wb f).allModels.map stripModel ∧
    (processAllSheets cy1 wb f).warnings = (processAllSheets cy2 wb f).warnings ∧
    (processAllSheets cy1 wb f).inputParameters
      = (processAllSheets cy2 wb f).inputParameters := by
  unfold processAllSheets
  dsimp only
  have main : ∀ (l : List Worksheet) (multi2 : Bool) (st1 st2 : OrchState),
      st1.allModels.map stripModel = st2.allModels.map stripModel →
      st1.warnings = st2.warnings →
      st1.inputParameters = st2.inputParameters →
      (l.foldl (processSheet cy1 multi2 f) st1).allModels.map stripModel
        = (l.foldl (processSheet cy2 multi2 f) st2).allModels.map stripModel ∧
      (l.foldl (processSheet cy1 multi2 f) st1).warnings
        = (l.foldl (processSheet cy2 multi2 f) st2).warnings ∧
      (l.foldl (processSheet cy1 multi2 f) st1).inputParameters
        = (l.foldl (processSheet cy2 multi2 f) st2).inputParameters := by
    intro l
    induction l with
    | nil => intro multi2 st1 st2 h1 h2 h3; exact ⟨h1, h2, h3⟩
    | cons ws t ih =>
      intro multi2 st1 st2 h1 h2 h3
      rw [List.foldl_cons, List.foldl_cons]
      obtain ⟨g1, g2, g3⟩ := processSheet_cy cy1 cy2 multi2 f st1 st2 ws h1 h2 h3
      exact ih multi2 _ _ g1 g2 g3
  exact main wb.worksheets _ _ _ rfl rfl rfl

/-- C9 (amended): the parse depends on its inputs and the wall-clock year
only through each period's `period_type` classification — with
`period_type` erased, two runs with the same document and display name
give identical results whatever the current year is.  (Runs in the same
year are therefore fully identical; runs straddling a year boundary can
differ, see the counterexample.) -/
theorem parse_deterministic_up_to_period_type (cy1 cy2 : Int) (wb : Workbook)
    (f : Option String) :
    stripResult (parseExcelBuffer cy1 wb f) = stripResult (parseExcelBuffer cy2 wb f) := by
  obtain ⟨h1, h2, h3⟩ := processAllSheets_cy cy1 cy2 wb f
  unfold parseExcelBuffer
  by_cases h0 : wb.worksheets.length = 0
  · rw [if_pos h0, if_pos h0]
  · rw [if_neg h0, if_neg h0]
    dsimp only
    by_cases hz : (processAllSheets cy1 wb f).allModels.length = 0
    · have hz2 : (processAllSheets cy2 wb f).allModels.length = 0 := by
        have := congrArg List.length h1
        simp only [List.length_map] at this
        omega
      rw [if_pos hz, if_pos hz2]
    · have hz2 : ¬(processAllSheets cy2 wb f).allModels.length = 0 := by
        have := congrArg List.length h1
        simp only [List.length_map] at this
        omega
      rw [if_neg hz, if_neg hz2]
      unfold stripResult
      dsimp only
      rw [h1, h2, h3]

/-- C9 counterexample: the same workbook parsed in wall-clock years 2025
and 2026 yields different Parse Results (the 2025 period is classified
"budget" in the first run and "actual" in the second) — the parse reads
the system clock, so two runs with identical inputs need not be
identical. -/
theorem parse_clock_dependent_cx :
    parseExcelBuffer 2025 wb9 none ≠ parseExcelBuffer 2026 wb9 none := by
  decide
